import Mathlib

/-!
SwiftAsyncProfiler core: stack walker and profiler target manager.

A shallow embedding of `Core/src/stack_walker.cpp` and `Core/src/profiler.cpp`.

* Machine words (`uint64_t`, `uint32_t`) are natural numbers; the places where a
  C operation can wrap (the `uint64_t` statistics counters, the timestamp
  arithmetic) carry an explicit `% 2 ^ 64`.
* `kern_return_t` and the `int` results are integers, `KERN_SUCCESS = 0`.
* The Mach kernel is an environment: a record of oracles over an arbitrary
  environment state `σ`, threaded through every call, so the outcome of a kernel
  call may depend on everything that happened before it.
* Every kernel call and every store into `trace->frames` is appended to a call
  record (`World.calls`), which is what the ordering properties talk about.
* The process-wide variables `g_config` and `g_initialized` form `Globals`.
* The target architecture is a compile-time choice in the source
  (`#if defined(__x86_64__)`); it is the parameter `arch`.
-/

namespace SwiftAsyncProfiler

/-! ## Constants and plain data (stack_walker.h) -/

/-- The capacity of `StackTrace.frames`: `#define MAX_STACK_DEPTH 512`. -/
def MAX_STACK_DEPTH : Nat := 512

/-- Mach `KERN_SUCCESS`. -/
def KERN_SUCCESS : Int := 0

/-- The two supported instruction sets, selected by the preprocessor in the source. -/
inductive Arch where
  | x86_64
  | arm64
deriving DecidableEq, Repr

/-- One stack frame: `typedef struct { uint64_t address; uint64_t frame_pointer; } StackFrame`. -/
structure StackFrame where
  address : Nat
  frame_pointer : Nat
deriving DecidableEq, Repr

/-- A stack trace. `frames` is the C array `StackFrame frames[MAX_STACK_DEPTH]`,
indexed by position; only positions below `MAX_STACK_DEPTH` exist in the C object. -/
structure StackTrace where
  frames : Nat → StackFrame
  frame_count : Nat
  thread : Nat
  thread_id : Nat
  timestamp_ns : Nat

/-- The stack walking strategies of `StackWalkStrategy`. -/
inductive StackWalkStrategy where
  | STACK_WALK_FRAME_POINTER
  | STACK_WALK_LIBUNWIND
  | STACK_WALK_HYBRID
deriving DecidableEq, Repr

/-- Walker configuration: `StackWalkerConfig`. -/
structure StackWalkerConfig where
  strategy : StackWalkStrategy
  max_depth : Nat
  capture_timestamps : Bool
  validate_addresses : Bool
deriving DecidableEq, Repr

/-- The register file the walker uses (`cpu_state_t` seen through `GET_PC`, `GET_FP`, `GET_SP`). -/
structure cpu_state_t where
  pc : Nat
  fp : Nat
  sp : Nat
deriving DecidableEq, Repr

/-- The macro `GET_PC`. -/
def GET_PC (state : cpu_state_t) : Nat := state.pc

/-- The macro `GET_FP`. -/
def GET_FP (state : cpu_state_t) : Nat := state.fp

/-! ## The kernel environment -/

/-- One entry of the call record: a kernel (or allocator) call, or a store into
`trace->frames` at the given index. -/
inductive Event where
  | malloc
  | free
  | task_for_pid (pid : Int)
  | task_threads (task : Nat)
  | mach_port_deallocate (name : Nat)
  | vm_deallocate (buffer : List Nat) (size : Nat)
  | thread_info (thread : Nat)
  | clock_gettime
  | thread_suspend (thread : Nat)
  | thread_get_state (thread : Nat)
  | thread_resume (thread : Nat)
  | vm_read_overwrite (task : Nat) (address : Nat) (size : Nat)
  | frame_store (index : Nat)
deriving DecidableEq, Repr

/-- The kernel oracles. Each takes the environment state and returns its outcome
together with the next environment state.
* `malloc` tells whether the allocation of the internal data succeeds;
* `task_for_pid pid` gives `(kr, task)`; `task_threads task` gives `(kr, threads)`;
* `thread_info thread` gives `(kr, thread_id)` for `THREAD_IDENTIFIER_INFO`;
* `clock_gettime` gives `(tv_sec, tv_nsec)`;
* `thread_get_state thread` gives `(kr, registers)`;
* `vm_read_overwrite task address size` gives `(kr, word0, word1)`: the two
  8-byte words copied into the 16-byte buffer.
Out-parameters (`task`, `threads`/`thread_count`) are written only when the call
returns `KERN_SUCCESS`, as the Mach interface generator does. -/
structure Kernel (σ : Type) where
  malloc : σ → Bool × σ
  task_for_pid : Int → σ → (Int × Nat) × σ
  task_threads : Nat → σ → (Int × List Nat) × σ
  mach_port_deallocate : Nat → σ → Int × σ
  vm_deallocate : List Nat → Nat → σ → Int × σ
  thread_info : Nat → σ → (Int × Nat) × σ
  clock_gettime : σ → (Nat × Nat) × σ
  thread_suspend : Nat → σ → Int × σ
  thread_get_state : Nat → σ → (Int × cpu_state_t) × σ
  thread_resume : Nat → σ → Int × σ
  vm_read_overwrite : Nat → Nat → Nat → σ → (Int × Nat × Nat) × σ

/-- The environment as the program sees it: the kernel state and the record of
calls issued so far (oldest first). -/
structure World (σ : Type) where
  kstate : σ
  calls : List Event

/-- The process-wide variables of stack_walker.cpp: `g_config` and `g_initialized`. -/
structure Globals where
  g_config : StackWalkerConfig
  g_initialized : Bool
deriving DecidableEq, Repr

/-! ## stack_walker.cpp -/

/-- The helper `is_valid_address`: the plausibility check applied to `pc`, `fp`
and every return address. `addr & 0x1` is the bitwise and. -/
def is_valid_address (arch : Arch) (addr : Nat) : Bool :=
  if addr = 0 then false
  else if addr < 0x100000 then false
  else if (match arch with
      | Arch.x86_64 => decide (addr ≥ 0x800000000000)
      | Arch.arm64 => decide (addr ≥ 0x1000000000)) then false
  else if addr &&& 0x1 ≠ 0 then false
  else true

/-- The record after one more entry. -/
def World.emit {σ : Type} (w : World σ) (kstate : σ) (e : Event) : World σ :=
  { kstate := kstate, calls := w.calls ++ [e] }

/-- The helper `get_timestamp_ns`: `clock_gettime(CLOCK_MONOTONIC_RAW)` turned into
nanoseconds, in `uint64_t` arithmetic. -/
def get_timestamp_ns {σ : Type} (K : Kernel σ) (w : World σ) : Nat × World σ :=
  let r := K.clock_gettime w.kstate
  ((r.1.1 % 2 ^ 64 * 1000000000 + r.1.2 % 2 ^ 64) % 2 ^ 64, w.emit r.2 Event.clock_gettime)

/-- The helper `read_memory`: one `vm_read_overwrite` of `size` bytes at `address`;
the result is the status and the two words of the buffer. -/
def read_memory {σ : Type} (K : Kernel σ) (task address size : Nat) (w : World σ) :
    (Int × Nat × Nat) × World σ :=
  let r := K.vm_read_overwrite task address size w.kstate
  (r.1, w.emit r.2 (Event.vm_read_overwrite task address size))

/-- The two statements `trace->frames[trace->frame_count] = {address, frame_pointer}`
and `trace->frame_count++`. -/
def StackTrace.add_frame (trace : StackTrace) (address frame_pointer : Nat) : StackTrace :=
  { trace with
    frames := Function.update trace.frames trace.frame_count
      { address := address, frame_pointer := frame_pointer }
    frame_count := trace.frame_count + 1 }

/-- The `while (trace->frame_count < g_config.max_depth)` loop of
`walk_stack_frame_pointer`, entered with the current `trace`, `fp` and `prev_fp`.
Every `break` returns the trace collected so far. -/
def walk_loop {σ : Type} (arch : Arch) (K : Kernel σ) (g : Globals) (task : Nat)
    (trace : StackTrace) (fp prev_fp : Nat) (w : World σ) : StackTrace × World σ :=
  if trace.frame_count < g.g_config.max_depth then
    if is_valid_address arch fp = false then (trace, w)
    else if fp ≤ prev_fp then (trace, w)
    else if fp - prev_fp > 0x100000 then (trace, w)
    else
      let r := read_memory K task fp 16 w
      if r.1.1 ≠ KERN_SUCCESS then (trace, r.2)
      else
        let next_fp := r.1.2.1
        let return_addr := r.1.2.2
        if is_valid_address arch return_addr = false then (trace, r.2)
        else
          let w1 := r.2.emit r.2.kstate (Event.frame_store trace.frame_count)
          let trace1 := trace.add_frame return_addr fp
          if next_fp = 0 then (trace1, w1)
          else walk_loop arch K g task trace1 next_fp fp w1
  else (trace, w)
termination_by g.g_config.max_depth - trace.frame_count
decreasing_by
  simp only [StackTrace.add_frame]
  omega

/-- The function `walk_stack_frame_pointer`: frame 0 from `pc` when it is plausible,
then the frame-pointer chain. The result code is always 0. -/
def walk_stack_frame_pointer {σ : Type} (arch : Arch) (K : Kernel σ) (g : Globals)
    (task : Nat) (state : cpu_state_t) (trace : StackTrace) (w : World σ) :
    Int × StackTrace × World σ :=
  let pc := GET_PC state
  let fp := GET_FP state
  let trace0 := { trace with frame_count := 0 }
  if is_valid_address arch pc then
    let w1 := w.emit w.kstate (Event.frame_store trace0.frame_count)
    let r := walk_loop arch K g task (trace0.add_frame pc fp) fp 0 w1
    (0, r.1, r.2)
  else if is_valid_address arch fp = false then (0, trace0, w)
  else
    let r := walk_loop arch K g task trace0 fp 0 w
    (0, r.1, r.2)

/-- The function `stack_walker_init`. `none` is the NULL argument. -/
def stack_walker_init (config : Option StackWalkerConfig) (_g : Globals) : Globals :=
  let g_config : StackWalkerConfig :=
    match config with
    | some c => c
    | none =>
      { strategy := StackWalkStrategy.STACK_WALK_FRAME_POINTER
        max_depth := MAX_STACK_DEPTH
        capture_timestamps := true
        validate_addresses := false }
  let g_config : StackWalkerConfig :=
    if g_config.max_depth > MAX_STACK_DEPTH then { g_config with max_depth := MAX_STACK_DEPTH }
    else g_config
  { g_config := g_config, g_initialized := true }

/-- The function `stack_walker_get_thread_id`: the result code and the value
written to `*thread_id` (the kernel identifier, or the thread port as fallback). -/
def stack_walker_get_thread_id {σ : Type} (K : Kernel σ) (thread : Nat) (w : World σ) :
    (Int × Nat) × World σ :=
  let r := K.thread_info thread w.kstate
  let w1 := w.emit r.2 (Event.thread_info thread)
  if r.1.1 = KERN_SUCCESS then ((0, r.1.2), w1)
  else ((r.1.1, thread), w1)

/-- The trace after `memset(trace, 0, sizeof(StackTrace))`. -/
def StackTrace.zero : StackTrace :=
  { frames := fun _ => { address := 0, frame_pointer := 0 }
    frame_count := 0, thread := 0, thread_id := 0, timestamp_ns := 0 }

/-- The first part of `stack_walker_capture`, up to the suspension of the thread:
the self-initialisation, the `memset`, the thread handle, the thread identifier
and the timestamp. -/
def capture_begin {σ : Type} (K : Kernel σ) (g : Globals) (thread : Nat)
    (_trace : StackTrace) (w : World σ) : StackTrace × Globals × World σ :=
  let g : Globals :=
    if g.g_initialized = false then
      stack_walker_init (some
        { strategy := StackWalkStrategy.STACK_WALK_FRAME_POINTER
          max_depth := MAX_STACK_DEPTH
          capture_timestamps := true
          validate_addresses := false }) g
    else g
  let trace : StackTrace := { StackTrace.zero with thread := thread }
  let rid := stack_walker_get_thread_id K thread w
  let trace : StackTrace := { trace with thread_id := rid.1.2 }
  if g.g_config.capture_timestamps then
    let t := get_timestamp_ns K rid.2
    ({ trace with timestamp_ns := t.1 }, g, t.2)
  else (trace, g, rid.2)

/-- The function `stack_walker_capture`: result code, the trace written through
`trace`, the globals (the walker initialises itself on first use) and the world.
After `capture_begin` it suspends the thread, reads the registers, walks the
stack and resumes the thread. -/
def stack_walker_capture {σ : Type} (arch : Arch) (K : Kernel σ) (g : Globals)
    (task thread : Nat) (trace : StackTrace) (w : World σ) :
    Int × StackTrace × Globals × World σ :=
  let b := capture_begin K g thread trace w
  let trace := b.1
  let g := b.2.1
  let rs := K.thread_suspend thread b.2.2.kstate
  let w1 := b.2.2.emit rs.2 (Event.thread_suspend thread)
  if rs.1 ≠ KERN_SUCCESS then (rs.1, trace, g, w1)
  else
    let rg := K.thread_get_state thread w1.kstate
    let w2 := w1.emit rg.2 (Event.thread_get_state thread)
    if rg.1.1 ≠ KERN_SUCCESS then
      let rr := K.thread_resume thread w2.kstate
      (rg.1.1, trace, g, w2.emit rr.2 (Event.thread_resume thread))
    else
      let state := rg.1.2
      let rw : Int × StackTrace × World σ :=
        match g.g_config.strategy with
        | StackWalkStrategy.STACK_WALK_FRAME_POINTER =>
          walk_stack_frame_pointer arch K g task state trace w2
        | StackWalkStrategy.STACK_WALK_LIBUNWIND =>
          walk_stack_frame_pointer arch K g task state trace w2
        | StackWalkStrategy.STACK_WALK_HYBRID =>
          walk_stack_frame_pointer arch K g task state trace w2
      let rr := K.thread_resume thread rw.2.2.kstate
      (rw.1, rw.2.1, g, rw.2.2.emit rr.2 (Event.thread_resume thread))

/-- One iteration of the `for` loop of `stack_walker_capture_batch`, on the loop
state `(successful, traces, globals, world)` at index `i`. -/
def capture_batch_step {σ : Type} (arch : Arch) (K : Kernel σ) (task : Nat)
    (threads : List Nat) (st : Int × (Nat → StackTrace) × Globals × World σ) (i : Nat) :
    Int × (Nat → StackTrace) × Globals × World σ :=
  let r := stack_walker_capture arch K st.2.2.1 task (threads.getD i 0) (st.2.1 i) st.2.2.2
  let traces := Function.update st.2.1 i r.2.1
  let successful := if r.1 = 0 ∧ (traces i).frame_count > 0 then st.1 + 1 else st.1
  (successful, traces, r.2.2.1, r.2.2.2)

/-- The function `stack_walker_capture_batch`: `threads` is the array,
`thread_count` its length argument, `traces` the caller's output array. The
result is the `int` count, the output array, the globals and the world. -/
def stack_walker_capture_batch {σ : Type} (arch : Arch) (K : Kernel σ) (g : Globals)
    (task : Nat) (threads : List Nat) (thread_count : Nat) (traces : Nat → StackTrace)
    (w : World σ) : Int × (Nat → StackTrace) × Globals × World σ :=
  (List.range thread_count).foldl (capture_batch_step arch K task threads) (0, traces, g, w)

/-- The function `stack_walker_cleanup`. -/
def stack_walker_cleanup (g : Globals) : Globals :=
  { g with g_initialized := false }

/-! ## profiler.h and profiler.cpp -/

/-- The lifecycle states of a target: `ProfilerState`. -/
inductive ProfilerState where
  | PROFILER_STATE_DETACHED
  | PROFILER_STATE_ATTACHED
  | PROFILER_STATE_SAMPLING
  | PROFILER_STATE_ERROR
deriving DecidableEq, Repr

/-- Profiler configuration: `struct ProfilerConfig`. -/
structure ProfilerConfig where
  sample_interval_ms : Nat
  max_stack_depth : Nat
  track_async : Bool
  track_threads : Bool
  stack_strategy : StackWalkStrategy
deriving DecidableEq, Repr

/-- The counters of `struct ProfilerStats`, each a `uint64_t`. -/
structure ProfilerStats where
  total_samples : Nat
  successful_samples : Nat
  failed_samples : Nat
  total_frames : Nat
  unique_addresses : Nat
deriving DecidableEq, Repr

/-- The heap object behind `internal_data`: `ProfilerInternalData`. -/
structure ProfilerInternalData where
  config : ProfilerConfig
  stats : ProfilerStats
deriving DecidableEq, Repr

/-- The target handle: `struct ProfilerTarget`. `threads = none` is the NULL
pointer, `internal_data = none` likewise. -/
structure ProfilerTarget where
  pid : Int
  task : Nat
  threads : Option (List Nat)
  thread_count : Nat
  state : ProfilerState
  internal_data : Option ProfilerInternalData
deriving DecidableEq, Repr

/-- The whole program state the profiler operations act on: the target, the
walker globals and the environment. -/
structure Process (σ : Type) where
  target : ProfilerTarget
  globals : Globals
  world : World σ

/-- Statistics after `memset(&stats, 0, sizeof(ProfilerStats))`. -/
def ProfilerStats.zero : ProfilerStats :=
  { total_samples := 0, successful_samples := 0, failed_samples := 0
    total_frames := 0, unique_addresses := 0 }

/-- Element `i` of the thread array of a target (`target->threads[i]`). -/
def ProfilerTarget.thread_at (target : ProfilerTarget) (i : Nat) : Nat :=
  (target.threads.getD []).getD i 0

/-- The function `profiler_default_config`. -/
def profiler_default_config : ProfilerConfig :=
  { sample_interval_ms := 10
    max_stack_depth := 512
    track_async := false
    track_threads := true
    stack_strategy := StackWalkStrategy.STACK_WALK_FRAME_POINTER }

/-- The function `profiler_attach` of profiler.cpp (the config-taking form).
`config = none` is the NULL argument. -/
def profiler_attach {σ : Type} (K : Kernel σ) (pid : Int) (config : Option ProfilerConfig)
    (p : Process σ) : Int × Process σ :=
  let target : ProfilerTarget :=
    { pid := pid, task := 0, threads := none, thread_count := 0
      state := ProfilerState.PROFILER_STATE_DETACHED, internal_data := none }
  let rm := K.malloc p.world.kstate
  let w1 := p.world.emit rm.2 Event.malloc
  if rm.1 = false then (-1, { target := target, globals := p.globals, world := w1 })
  else
    let internal : ProfilerInternalData :=
      { config := match config with
          | some c => c
          | none => profiler_default_config
        stats := ProfilerStats.zero }
    let target := { target with internal_data := some internal }
    let sw_config : StackWalkerConfig :=
      { strategy := internal.config.stack_strategy
        max_depth := internal.config.max_stack_depth
        capture_timestamps := true
        validate_addresses := false }
    let g := stack_walker_init (some sw_config) p.globals
    let rt := K.task_for_pid pid w1.kstate
    let w2 := w1.emit rt.2 (Event.task_for_pid pid)
    if rt.1.1 ≠ KERN_SUCCESS then
      (rt.1.1, { target := { target with internal_data := none }, globals := g
                 world := w2.emit w2.kstate Event.free })
    else
      (0, { target := { target with task := rt.1.2
                                    state := ProfilerState.PROFILER_STATE_ATTACHED }
            globals := g, world := w2 })

/-- The release of a thread list, shared by `profiler_refresh_threads` and
`profiler_detach`: one `mach_port_deallocate` per element `threads[i]`,
`i < thread_count`, then one `vm_deallocate` of the array. -/
def release_threads {σ : Type} (K : Kernel σ) (target : ProfilerTarget) (w : World σ) :
    World σ :=
  let w1 := (List.range target.thread_count).foldl
    (fun (w : World σ) (i : Nat) =>
      w.emit (K.mach_port_deallocate (target.thread_at i) w.kstate).2
        (Event.mach_port_deallocate (target.thread_at i))) w
  w1.emit (K.vm_deallocate (target.threads.getD []) (target.thread_count * 4) w1.kstate).2
    (Event.vm_deallocate (target.threads.getD []) (target.thread_count * 4))

/-- The function `profiler_refresh_threads`. -/
def profiler_refresh_threads {σ : Type} (K : Kernel σ) (p : Process σ) : Int × Process σ :=
  if p.target.state = ProfilerState.PROFILER_STATE_DETACHED then (-1, p)
  else
    let r1 : ProfilerTarget × World σ :=
      if p.target.threads ≠ none then
        ({ p.target with threads := none, thread_count := 0 },
          release_threads K p.target p.world)
      else (p.target, p.world)
    let rt := K.task_threads r1.1.task r1.2.kstate
    let w2 := r1.2.emit rt.2 (Event.task_threads r1.1.task)
    if rt.1.1 ≠ KERN_SUCCESS then
      (rt.1.1, { target := { r1.1 with state := ProfilerState.PROFILER_STATE_ERROR }
                 globals := p.globals, world := w2 })
    else
      (0, { target := { r1.1 with threads := some rt.1.2, thread_count := rt.1.2.length }
            globals := p.globals, world := w2 })

/-- The statistics update of `profiler_capture_thread_stack`, in `uint64_t` arithmetic. -/
def update_stats_single (stats : ProfilerStats) (result : Int) (frame_count : Nat) :
    ProfilerStats :=
  let stats := { stats with total_samples := (stats.total_samples + 1) % 2 ^ 64 }
  if result = 0 then
    { stats with
      successful_samples := (stats.successful_samples + 1) % 2 ^ 64
      total_frames := (stats.total_frames + frame_count) % 2 ^ 64 }
  else
    { stats with failed_samples := (stats.failed_samples + 1) % 2 ^ 64 }

/-- The function `profiler_capture_thread_stack`: result code, the caller's trace
object afterwards, and the program state. -/
def profiler_capture_thread_stack {σ : Type} (arch : Arch) (K : Kernel σ)
    (thread_index : Nat) (trace : StackTrace) (p : Process σ) :
    Int × StackTrace × Process σ :=
  if p.target.state = ProfilerState.PROFILER_STATE_DETACHED then (-1, trace, p)
  else if thread_index ≥ p.target.thread_count then (-1, trace, p)
  else
    let thread := p.target.thread_at thread_index
    let r := stack_walker_capture arch K p.globals p.target.task thread trace p.world
    let internal := p.target.internal_data.map
      (fun d => { d with stats := update_stats_single d.stats r.1 r.2.1.frame_count })
    (r.1, r.2.1, { target := { p.target with internal_data := internal }
                   globals := r.2.2.1, world := r.2.2.2 })

/-- The loop `for (uint32_t i = 0; i < captured; i++) total_frames += traces[i].frame_count`
of `profiler_capture_all_stacks`, with `n` the bound as an unsigned number. -/
def add_total_frames (traces : Nat → StackTrace) (n : Nat) (total_frames : Nat) : Nat :=
  (List.range n).foldl (fun acc i => (acc + (traces i).frame_count) % 2 ^ 64) total_frames

/-- The statistics update of `profiler_capture_all_stacks`: `thread_count` is the
unsigned 32-bit `target->thread_count`, `captured` the `int` returned by the
batch walker; the counters are `uint64_t`. -/
def update_stats_batch (stats : ProfilerStats) (thread_count : Nat) (captured : Int)
    (traces : Nat → StackTrace) : ProfilerStats :=
  { stats with
    total_samples := (stats.total_samples + thread_count) % 2 ^ 64
    successful_samples := (((stats.successful_samples : Int) + captured) % 2 ^ 64).toNat
    failed_samples :=
      (stats.failed_samples + ((((thread_count : Int) - captured) % 2 ^ 32).toNat)) % 2 ^ 64
    total_frames := add_total_frames traces ((captured % 2 ^ 32).toNat) stats.total_frames }

/-- The function `profiler_capture_all_stacks`: result code, the caller's trace
array and `*trace_count` afterwards, and the program state. -/
def profiler_capture_all_stacks {σ : Type} (arch : Arch) (K : Kernel σ)
    (traces : Nat → StackTrace) (trace_count : Nat) (p : Process σ) :
    Int × (Nat → StackTrace) × Nat × Process σ :=
  if p.target.state = ProfilerState.PROFILER_STATE_DETACHED then (-1, traces, trace_count, p)
  else
    let r := stack_walker_capture_batch arch K p.globals p.target.task
      (p.target.threads.getD []) p.target.thread_count traces p.world
    let captured := r.1
    let internal := p.target.internal_data.map
      (fun d => { d with
        stats := update_stats_batch d.stats p.target.thread_count captured r.2.1 })
    (0, r.2.1, (captured % 2 ^ 32).toNat,
      { target := { p.target with internal_data := internal }
        globals := r.2.2.1, world := r.2.2.2 })

/-- The function `profiler_get_stats`. -/
def profiler_get_stats (target : ProfilerTarget) : ProfilerStats :=
  match target.internal_data with
  | none => ProfilerStats.zero
  | some internal => internal.stats

/-- The function `profiler_detach` of profiler.cpp. -/
def profiler_detach {σ : Type} (K : Kernel σ) (p : Process σ) : Process σ :=
  if p.target.state = ProfilerState.PROFILER_STATE_DETACHED then p
  else
    let r1 : ProfilerTarget × World σ :=
      if p.target.threads ≠ none then
        ({ p.target with threads := none, thread_count := 0 },
          release_threads K p.target p.world)
      else (p.target, p.world)
    let r2 : ProfilerTarget × World σ :=
      if r1.1.task ≠ 0 then
        ({ r1.1 with task := 0 },
          r1.2.emit (K.mach_port_deallocate r1.1.task r1.2.kstate).2
            (Event.mach_port_deallocate r1.1.task))
      else r1
    let r3 : ProfilerTarget × World σ :=
      if r2.1.internal_data ≠ none then
        ({ r2.1 with internal_data := none }, r2.2.emit r2.2.kstate Event.free)
      else r2
    { target := { r3.1 with state := ProfilerState.PROFILER_STATE_DETACHED }
      globals := stack_walker_cleanup p.globals
      world := r3.2 }

/-! ## Vocabulary of the statements -/

/-- The architecture ceiling named by the specification: the first address that
is no longer user space. -/
def arch_ceiling : Arch → Nat
  | Arch.x86_64 => 0x800000000000
  | Arch.arm64 => 0x1000000000

/-- Recogniser of `thread_resume` entries of the call record. -/
def Event.is_thread_resume : Event → Bool
  | Event.thread_resume _ => true
  | _ => false

/-- Recogniser of `thread_get_state` entries of the call record. -/
def Event.is_thread_get_state : Event → Bool
  | Event.thread_get_state _ => true
  | _ => false

/-- Recogniser of memory reads (`vm_read_overwrite`) in the call record. -/
def Event.is_memory_read : Event → Bool
  | Event.vm_read_overwrite _ _ _ => true
  | _ => false

/-- The entries the frame-pointer walk can add to the call record: a 16-byte read
in `task`, or a store into `frames` at an index from `lo` up to, not including, `hi`. -/
def Event.is_walk_step (task lo hi : Nat) : Event → Bool
  | Event.vm_read_overwrite t _ size => decide (t = task ∧ size = 16)
  | Event.frame_store i => decide (lo ≤ i ∧ i < hi)
  | _ => false

/-- The relation between the trace `t` the chain loop is entered with (at frame
pointer `fp`, previous frame pointer `prev_fp`, depth limit `max_depth`) and the
trace `r` it leaves: `r` keeps the frames and fields of `t`; every appended frame
has a plausible address and frame pointer; the first appended frame is at `fp`,
above `prev_fp` by at most `0x100000`; each later appended frame is above its
predecessor by at most `0x100000`. -/
def WalkExtends (arch : Arch) (max_depth : Nat) (t r : StackTrace) (fp prev_fp : Nat) : Prop :=
  t.frame_count ≤ r.frame_count ∧
  r.frame_count ≤ max t.frame_count max_depth ∧
  r.thread = t.thread ∧ r.thread_id = t.thread_id ∧ r.timestamp_ns = t.timestamp_ns ∧
  (∀ i, i < t.frame_count → r.frames i = t.frames i) ∧
  (∀ i, t.frame_count ≤ i → i < r.frame_count →
    is_valid_address arch (r.frames i).address = true ∧
    is_valid_address arch (r.frames i).frame_pointer = true) ∧
  (t.frame_count < r.frame_count →
    (r.frames t.frame_count).frame_pointer = fp ∧ prev_fp < fp ∧ fp ≤ prev_fp + 0x100000) ∧
  (∀ i, t.frame_count ≤ i → i + 1 < r.frame_count →
    (r.frames i).frame_pointer < (r.frames (i + 1)).frame_pointer ∧
    (r.frames (i + 1)).frame_pointer ≤ (r.frames i).frame_pointer + 0x100000)

/-! ## Concrete environments -/

/-- A kernel without internal state, given by its tables: the thread list of the
task, the status of `thread_suspend` per thread, the status and registers of
`thread_get_state` per thread, and the target memory (status and the two words
read at an address). Every other call succeeds. -/
def table_kernel (threads : List Nat) (suspend : Nat → Int)
    (regs : Nat → Int × cpu_state_t) (mem : Nat → Int × Nat × Nat) : Kernel Unit :=
  { malloc := fun u => (true, u)
    task_for_pid := fun pid u => ((0, pid.toNat + 0x1000), u)
    task_threads := fun _ u => ((0, threads), u)
    mach_port_deallocate := fun _ u => (0, u)
    vm_deallocate := fun _ _ u => (0, u)
    thread_info := fun thread u => ((0, thread + 100), u)
    clock_gettime := fun u => ((1, 5), u)
    thread_suspend := fun thread u => (suspend thread, u)
    thread_get_state := fun thread u => (regs thread, u)
    thread_resume := fun _ u => (0, u)
    vm_read_overwrite := fun _ address _ u => (mem address, u) }

/-- The world before any call. -/
def fresh_world : World Unit := { kstate := (), calls := [] }

/-- The globals at program start: zero-initialised statics. -/
def initial_globals : Globals :=
  { g_config :=
      { strategy := StackWalkStrategy.STACK_WALK_FRAME_POINTER, max_depth := 0
        capture_timestamps := false, validate_addresses := false }
    g_initialized := false }

/-- The target memory of end-to-end scenario 1: three frames at `0x7ff000001000`,
`0x7ff000001100`, `0x7ff000001200`; every other read fails. -/
def chain3_mem (address : Nat) : Int × Nat × Nat :=
  if address = 0x7ff000001000 then (0, 0x7ff000001100, 0x100004200)
  else if address = 0x7ff000001100 then (0, 0x7ff000001200, 0x100004400)
  else if address = 0x7ff000001200 then (0, 0, 0x100004600)
  else (1, 0, 0)

/-- The registers of end-to-end scenario 1. -/
def chain3_state : cpu_state_t :=
  { pc := 0x100004000, fp := 0x7ff000001000, sp := 0x7ff000000ff0 }

/-- The kernel of end-to-end scenario 1: one thread, every call succeeds. -/
def chain3_kernel : Kernel Unit :=
  table_kernel [7] (fun _ => 0) (fun _ => (0, chain3_state)) chain3_mem

/-- A walker configuration with the frame-pointer strategy and the given depth. -/
def depth_config (max_depth : Nat) : StackWalkerConfig :=
  { strategy := StackWalkStrategy.STACK_WALK_FRAME_POINTER, max_depth := max_depth
    capture_timestamps := true, validate_addresses := false }

/-- A target memory whose frame chain starts at the lowest plausible frame
pointer: frames at `0x100000` and `0x100100`; every other read fails. -/
def low_chain_mem (address : Nat) : Int × Nat × Nat :=
  if address = 0x100000 then (0, 0x100100, 0x100004200)
  else if address = 0x100100 then (0, 0, 0x100004400)
  else (1, 0, 0)

/-- Registers with a plausible `pc` and the frame pointer `0x100000`. -/
def low_chain_state : cpu_state_t :=
  { pc := 0x100004000, fp := 0x100000, sp := 0xffff0 }

/-- A kernel over `low_chain_mem` with one thread; every call succeeds. -/
def low_chain_kernel : Kernel Unit :=
  table_kernel [7] (fun _ => 0) (fun _ => (0, low_chain_state)) low_chain_mem

/-- A kernel in which `thread_suspend` fails with status 4 for every thread. -/
def suspend_fail_kernel : Kernel Unit :=
  table_kernel [7] (fun _ => 4) (fun _ => (0, chain3_state)) chain3_mem

/-- A kernel in which `thread_get_state` fails with status 5 for every thread. -/
def state_fail_kernel : Kernel Unit :=
  table_kernel [7] (fun _ => 0) (fun _ => (5, chain3_state)) chain3_mem

/-- The captures of a thread list one after the other, in list order, each
starting from the globals and the world the previous one left: the result code
and the trace of every capture, then the final globals and world. -/
def capture_each {σ : Type} (arch : Arch) (K : Kernel σ) (task : Nat) :
    List Nat → Globals → World σ → List (Int × StackTrace) × Globals × World σ
  | [], g, w => ([], g, w)
  | thread :: rest, g, w =>
    let r := stack_walker_capture arch K g task thread StackTrace.zero w
    let rs := capture_each arch K task rest r.2.2.1 r.2.2.2
    ((r.1, r.2.1) :: rs.1, rs.2)

/-- A capture that the batch walker counts: result 0 and at least one frame. -/
def counted_capture (c : Int × StackTrace) : Bool :=
  decide (c.1 = 0 ∧ c.2.frame_count > 0)

/-- A sampling call of the profiler with its arguments. -/
inductive SampleCall where
  | thread_stack (thread_index : Nat) (trace : StackTrace)
  | all_stacks (traces : Nat → StackTrace) (trace_count : Nat)

/-- The program state after one sampling call. -/
def run_sample_call {σ : Type} (arch : Arch) (K : Kernel σ) (p : Process σ) :
    SampleCall → Process σ
  | SampleCall.thread_stack thread_index trace =>
    (profiler_capture_thread_stack arch K thread_index trace p).2.2
  | SampleCall.all_stacks traces trace_count =>
    (profiler_capture_all_stacks arch K traces trace_count p).2.2.2

/-- The program state after a sequence of sampling calls, first call first. -/
def run_sample_calls {σ : Type} (arch : Arch) (K : Kernel σ) (calls : List SampleCall)
    (p : Process σ) : Process σ :=
  calls.foldl (run_sample_call arch K) p

/-- The value of the C comparison `total_samples == successful_samples + failed_samples`
on `uint64_t` counters. When the sum on the right has not wrapped it is the plain
equality. -/
def StatsBalanced (stats : ProfilerStats) : Prop :=
  stats.total_samples = (stats.successful_samples + stats.failed_samples) % 2 ^ 64

/-- Registers with a plausible `pc` and no frame pointer: the walk gives one frame. -/
def leaf_state : cpu_state_t :=
  { pc := 0x100004000, fp := 0, sp := 0 }

/-- Registers of the empty-trace scenario: `pc = 0`, `fp = 0`. -/
def empty_state : cpu_state_t :=
  { pc := 0, fp := 0, sp := 0 }

/-- Two threads, 7 and 8: suspending thread 7 fails with status 4, thread 8 is
captured with `leaf_state`. No memory is readable. -/
def first_fails_kernel : Kernel Unit :=
  table_kernel [7, 8] (fun thread => if thread = 7 then 4 else 0)
    (fun _ => (0, leaf_state)) (fun _ => (1, 0, 0))

/-- One thread, 7, whose registers are `empty_state`; every kernel call succeeds. -/
def empty_trace_kernel : Kernel Unit :=
  table_kernel [7] (fun _ => 0) (fun _ => (0, empty_state)) (fun _ => (1, 0, 0))

/-- The program before `profiler_attach`: a zeroed target, the initial globals,
no call issued. -/
def initial_process : Process Unit :=
  { target :=
      { pid := 0, task := 0, threads := none, thread_count := 0
        state := ProfilerState.PROFILER_STATE_DETACHED, internal_data := none }
    globals := initial_globals
    world := fresh_world }

/-- The program after `profiler_attach(42, NULL, target)` and
`profiler_refresh_threads(target)` on kernel `K`. -/
def attached_process (K : Kernel Unit) : Process Unit :=
  (profiler_refresh_threads K (profiler_attach K 42 none initial_process).2).2

/-- The block `if (target->threads != NULL) { ... }` shared by
`profiler_refresh_threads` and `profiler_detach`: the target and the world after
the held thread list, if any, has been released. -/
def release_if_held {σ : Type} (K : Kernel σ) (target : ProfilerTarget) (w : World σ) :
    ProfilerTarget × World σ :=
  if target.threads ≠ none then
    ({ target with threads := none, thread_count := 0 }, release_threads K target w)
  else (target, w)

/-- The calls that release a thread list: one `mach_port_deallocate` per handle,
in list order, then one `vm_deallocate` of the array (4 bytes per handle); none
for the NULL list. -/
def release_calls : Option (List Nat) → List Event
  | none => []
  | some held =>
    held.map Event.mach_port_deallocate ++ [Event.vm_deallocate held (held.length * 4)]

/-- What every target produced by the operations of profiler.cpp satisfies:
`thread_count` is the length of the held list; a detached target holds no task
handle, no thread list and no internal data; any other target has internal data. -/
def TargetConsistent (t : ProfilerTarget) : Prop :=
  t.thread_count = (t.threads.getD []).length ∧
  (t.state = ProfilerState.PROFILER_STATE_DETACHED →
    t.task = 0 ∧ t.threads = none ∧ t.internal_data = none) ∧
  (t.state ≠ ProfilerState.PROFILER_STATE_DETACHED → t.internal_data ≠ none)

/-- The program states reachable from a `profiler_attach` call by the operations
of profiler.cpp, all on kernel `K`. -/
inductive Reachable {σ : Type} (arch : Arch) (K : Kernel σ) : Process σ → Prop where
  | attach (pid : Int) (config : Option ProfilerConfig) (p0 : Process σ) :
    Reachable arch K (profiler_attach K pid config p0).2
  | refresh (p : Process σ) :
    Reachable arch K p → Reachable arch K (profiler_refresh_threads K p).2
  | capture_thread (thread_index : Nat) (trace : StackTrace) (p : Process σ) :
    Reachable arch K p →
    Reachable arch K (profiler_capture_thread_stack arch K thread_index trace p).2.2
  | capture_all (traces : Nat → StackTrace) (trace_count : Nat) (p : Process σ) :
    Reachable arch K p →
    Reachable arch K (profiler_capture_all_stacks arch K traces trace_count p).2.2.2
  | detach (p : Process σ) :
    Reachable arch K p → Reachable arch K (profiler_detach K p)

/-- The variables of the chain loop at the start of a pass. -/
structure LoopState (σ : Type) where
  trace : StackTrace
  fp : Nat
  prev_fp : Nat
  world : World σ

/-- The pass starting at `s` gets as far as the memory read: the depth limit is
not reached, `fp` is plausible, above `prev_fp`, by at most `0x100000`. -/
def loop_reads {σ : Type} (arch : Arch) (g : Globals) (s : LoopState σ) : Bool :=
  decide (s.trace.frame_count < g.g_config.max_depth) && is_valid_address arch s.fp &&
    decide (s.prev_fp < s.fp) && decide (s.fp - s.prev_fp ≤ 0x100000)

/-- The state of the next pass, when the pass starting at `s` reads a frame,
appends it and goes round again (`next_fp` is not 0); `none` when the loop ends
in this pass. -/
def loop_next {σ : Type} (arch : Arch) (K : Kernel σ) (g : Globals) (task : Nat)
    (s : LoopState σ) : Option (LoopState σ) :=
  let r := read_memory K task s.fp 16 s.world
  if loop_reads arch g s = true ∧ r.1.1 = KERN_SUCCESS ∧
      is_valid_address arch r.1.2.2 = true ∧ r.1.2.1 ≠ 0 then
    some { trace := s.trace.add_frame r.1.2.2 s.fp, fp := r.1.2.1, prev_fp := s.fp
           world := r.2.emit r.2.kstate (Event.frame_store s.trace.frame_count) }
  else none

/-- The pass starting at `s1` is the one that follows `n` passes after the pass
starting at `s0`. -/
def loop_reaches {σ : Type} (arch : Arch) (K : Kernel σ) (g : Globals) (task : Nat) :
    Nat → LoopState σ → LoopState σ → Prop
  | 0, s0, s1 => s1 = s0
  | n + 1, s0, s1 => ∃ m, loop_next arch K g task s0 = some m ∧ loop_reaches arch K g task n m s1

/-- The state with which `walk_stack_frame_pointer` enters the chain loop; `none`
when it returns before the loop (`pc` and `fp` both implausible). -/
def walk_loop_entry {σ : Type} (arch : Arch) (state : cpu_state_t) (trace : StackTrace)
    (w : World σ) : Option (LoopState σ) :=
  if is_valid_address arch (GET_PC state) then
    some { trace := StackTrace.add_frame { trace with frame_count := 0 } (GET_PC state)
                      (GET_FP state)
           fp := GET_FP state, prev_fp := 0
           world := w.emit w.kstate (Event.frame_store 0) }
  else if is_valid_address arch (GET_FP state) = false then none
  else some { trace := { trace with frame_count := 0 }, fp := GET_FP state, prev_fp := 0
              world := w }

/-- A kernel in which the allocation of the internal data fails. -/
def malloc_fail_kernel : Kernel Unit :=
  { table_kernel [7] (fun _ => 0) (fun _ => (0, chain3_state)) chain3_mem with
    malloc := fun u => (false, u) }

/-- A kernel in which `task_for_pid` fails with status 5. -/
def attach_fail_kernel : Kernel Unit :=
  { table_kernel [7] (fun _ => 0) (fun _ => (0, chain3_state)) chain3_mem with
    task_for_pid := fun _ u => ((5, 0), u) }

/-- A kernel in which `task_threads` fails with status 6. -/
def threads_fail_kernel : Kernel Unit :=
  { table_kernel [7] (fun _ => 0) (fun _ => (0, chain3_state)) chain3_mem with
    task_threads := fun _ u => ((6, []), u) }

/-- A profiler configuration that differs from the default in every mapped field. -/
def hybrid_config : ProfilerConfig :=
  { sample_interval_ms := 5, max_stack_depth := 1000, track_async := false
    track_threads := true, stack_strategy := StackWalkStrategy.STACK_WALK_HYBRID }

/-- An attached target (threads 7 and 8) put in state `PROFILER_STATE_SAMPLING`. -/
def sampling_process : Process Unit :=
  { attached_process first_fails_kernel with
    target := { (attached_process first_fails_kernel).target with
      state := ProfilerState.PROFILER_STATE_SAMPLING } }

/-- A target memory with a self-loop: the frame at `0x100000` stores itself as
the next frame pointer. -/
def self_loop_mem (address : Nat) : Int × Nat × Nat :=
  if address = 0x100000 then (0, 0x100000, 0x100004200) else (1, 0, 0)

/-- A kernel over `self_loop_mem` with one thread; every call succeeds. -/
def self_loop_kernel : Kernel Unit :=
  table_kernel [7] (fun _ => 0) (fun _ => (0, low_chain_state)) self_loop_mem

/-- The calls `profiler_detach` makes on a target: none when it is Detached;
otherwise the release of the held thread list, one `mach_port_deallocate` of the
task handle when it is not 0, and one `free` of the internal data when present. -/
def detach_calls (t : ProfilerTarget) : List Event :=
  if t.state = ProfilerState.PROFILER_STATE_DETACHED then []
  else
    release_calls t.threads
      ++ (if t.task ≠ 0 then [Event.mach_port_deallocate t.task] else [])
      ++ (if t.internal_data ≠ none then [Event.free] else [])

/-- The pass with which the walk over `low_chain_mem` enters the loop: the `pc`
frame is stored, `fp = 0x100000`, `prev_fp = 0`. -/
def low_chain_entry : LoopState Unit :=
  { trace := StackTrace.add_frame { StackTrace.zero with frame_count := 0 } 0x100004000 0x100000
    fp := 0x100000, prev_fp := 0
    world := fresh_world.emit () (Event.frame_store 0) }

/-- The second pass of the walk over `low_chain_mem`: the frame read at `0x100000`
is stored, `fp = 0x100100`, `prev_fp = 0x100000`. -/
def low_chain_second : LoopState Unit :=
  { trace := low_chain_entry.trace.add_frame 0x100004200 0x100000
    fp := 0x100100, prev_fp := 0x100000
    world := (low_chain_entry.world.emit () (Event.vm_read_overwrite 1 0x100000 16)).emit ()
      (Event.frame_store 1) }

/-- Recogniser of the pass counter's condition: the loop condition
`trace->frame_count < g_config.max_depth` holds at the start of the pass. -/
def loop_enters {σ : Type} (g : Globals) (s : LoopState σ) : Bool :=
  decide (s.trace.frame_count < g.g_config.max_depth)

/-- A target memory whose reads always succeed and whose chain never ends: the
frame at `a` points to `a + 0x100`. -/
def endless_mem (address : Nat) : Int × Nat × Nat :=
  (0, address + 0x100, 0x100004200)

/-- A kernel over `endless_mem` with one thread; every call succeeds. -/
def endless_kernel : Kernel Unit :=
  table_kernel [7] (fun _ => 0) (fun _ => (0, low_chain_state)) endless_mem

/-- The target holding threads 7 and 8 after a failed enumeration (state Error, no
list) followed by a successful one (threads 7 and 8 again). -/
def error_process : Process Unit :=
  (profiler_refresh_threads first_fails_kernel
    (profiler_refresh_threads threads_fail_kernel (attached_process first_fails_kernel)).2).2

/-- An operation on an attached target other than `profiler_detach`, with its
arguments. -/
inductive TargetCall where
  | refresh_threads
  | capture_thread_stack (thread_index : Nat) (trace : StackTrace)
  | capture_all_stacks (traces : Nat → StackTrace) (trace_count : Nat)

/-- The program state after one operation. -/
def run_target_call {σ : Type} (arch : Arch) (K : Kernel σ) (p : Process σ) :
    TargetCall → Process σ
  | TargetCall.refresh_threads => (profiler_refresh_threads K p).2
  | TargetCall.capture_thread_stack thread_index trace =>
    (profiler_capture_thread_stack arch K thread_index trace p).2.2
  | TargetCall.capture_all_stacks traces trace_count =>
    (profiler_capture_all_stacks arch K traces trace_count p).2.2.2

/-! ## Theorems -/

/-- C5: on either architecture an address is accepted by `is_valid_address`
exactly when it is non-zero, at least `0x100000`, below the architecture
ceiling (`0x800000000000` on x86-64, `0x1000000000` on AArch64) and even. -/
theorem is_valid_address_iff (arch : Arch) (a : Nat) :
    is_valid_address arch a = true ↔
      (a ≠ 0 ∧ 0x100000 ≤ a ∧ a < arch_ceiling arch ∧ a % 2 = 0) := by
  have hland : a &&& 1 = a % 2 := Nat.and_one_is_mod a
  cases arch <;>
    simp only [is_valid_address, arch_ceiling, hland] <;>
    split_ifs <;> simp_all


/-! ### The chain loop -/

/-- A loop that stops at once leaves the trace as it found it. -/
theorem WalkExtends.same (arch : Arch) (max_depth : Nat) (t : StackTrace) (fp prev_fp : Nat) :
    WalkExtends arch max_depth t t fp prev_fp := by
  refine ⟨le_refl _, le_max_left _ _, rfl, rfl, rfl, fun _ _ => rfl, ?_, ?_, ?_⟩
  · intro i h1 h2; omega
  · intro h; omega
  · intro i h1 h2; omega

/-- One accepted frame followed by whatever the rest of the loop appends. -/
theorem WalkExtends.step (arch : Arch) (max_depth : Nat) (t r : StackTrace)
    (fp prev_fp ret next_fp : Nat) (hd : t.frame_count < max_depth)
    (hfp : is_valid_address arch fp = true) (hlt : prev_fp < fp)
    (hsz : fp ≤ prev_fp + 0x100000) (hret : is_valid_address arch ret = true)
    (h : WalkExtends arch max_depth (t.add_frame ret fp) r next_fp fp) :
    WalkExtends arch max_depth t r fp prev_fp := by
  obtain ⟨h1, h2, h3, h4, h5, h6, h7, h8, h9⟩ := h
  simp only [StackTrace.add_frame] at h1 h2 h3 h4 h5 h6 h7 h8 h9
  have hat : r.frames t.frame_count = { address := ret, frame_pointer := fp } := by
    rw [h6 t.frame_count (Nat.lt_succ_self _)]
    exact Function.update_same _ _ _
  refine ⟨by omega, ?_, h3, h4, h5, ?_, ?_, ?_, ?_⟩
  · have := le_max_left t.frame_count max_depth
    have := le_max_right t.frame_count max_depth
    rcases le_max_iff.mp h2 with h | h <;> omega
  · intro i hi
    rw [h6 i (by omega)]
    exact Function.update_noteq (by omega) _ _
  · intro i hi1 hi2
    rcases Nat.eq_or_lt_of_le hi1 with e | l
    · subst e; rw [hat]; exact ⟨hret, hfp⟩
    · exact h7 i (by omega) hi2
  · intro _
    rw [hat]; exact ⟨rfl, hlt, hsz⟩
  · intro i hi1 hi2
    rcases Nat.eq_or_lt_of_le hi1 with e | l
    · subst e
      rw [hat]
      have := h8 (by omega)
      simp only at this ⊢
      omega
    · exact h9 i (by omega) hi2

/-- The chain loop extends the trace it is entered with. -/
theorem walk_loop_extends {σ : Type} (arch : Arch) (K : Kernel σ) (g : Globals) (task : Nat)
    (trace : StackTrace) (fp prev_fp : Nat) (w : World σ) :
    WalkExtends arch g.g_config.max_depth trace
      (walk_loop arch K g task trace fp prev_fp w).1 fp prev_fp := by
  induction trace, fp, prev_fp, w using walk_loop.induct arch K g task with
  | case1 trace fp prev_fp w h1 h2 =>
    rw [walk_loop]; simp only [h1, h2, if_true]; exact WalkExtends.same _ _ _ _ _
  | case2 trace fp prev_fp w h1 h2 h3 =>
    rw [walk_loop]; simp only [h1, h2, h3, if_true, if_false]; exact WalkExtends.same _ _ _ _ _
  | case3 trace fp prev_fp w h1 h2 h3 h4 =>
    rw [walk_loop]; simp only [h1, h2, h3, h4, if_true, if_false]
    exact WalkExtends.same _ _ _ _ _
  | case4 trace fp prev_fp w h1 h2 h3 h4 r h5 =>
    rw [walk_loop]; simp only [h1, h2, h3, h4, if_true, if_false]
    rw [if_pos h5]; exact WalkExtends.same _ _ _ _ _
  | case5 trace fp prev_fp w h1 h2 h3 h4 r h5 ra h6 =>
    rw [walk_loop]; simp only [h1, h2, h3, h4, if_true, if_false]
    rw [if_neg h5, if_pos h6]; exact WalkExtends.same _ _ _ _ _
  | case6 trace fp prev_fp w h1 h2 h3 h4 r h5 nf ra h6 h7 =>
    rw [walk_loop]; simp only [h1, h2, h3, h4, if_true, if_false]
    rw [if_neg h5, if_neg h6, if_pos h7]
    exact WalkExtends.step arch _ trace _ fp prev_fp ra nf h1 (by simpa using h2) (by omega)
      (by omega) (by simpa using h6) (WalkExtends.same _ _ _ _ _)
  | case7 trace fp prev_fp w h1 h2 h3 h4 r h5 nf ra h6 w1 trace1 h7 ih =>
    rw [walk_loop]; simp only [h1, h2, h3, h4, if_true, if_false]
    rw [if_neg h5, if_neg h6, if_neg h7]
    exact WalkExtends.step arch _ trace _ fp prev_fp ra nf h1 (by simpa using h2) (by omega)
      (by omega) (by simpa using h6) ih
  | case8 trace fp prev_fp w h1 =>
    rw [walk_loop]; simp only [h1, if_false]; exact WalkExtends.same _ _ _ _ _

/-- The chain loop only adds 16-byte reads in `task` and stores at indices from
the entry `frame_count` up to the depth limit to the call record. -/
theorem walk_loop_calls {σ : Type} (arch : Arch) (K : Kernel σ) (g : Globals) (task : Nat)
    (trace : StackTrace) (fp prev_fp : Nat) (w : World σ) :
    ∃ l, (walk_loop arch K g task trace fp prev_fp w).2.calls = w.calls ++ l ∧
      ∀ e ∈ l, Event.is_walk_step task trace.frame_count g.g_config.max_depth e = true := by
  induction trace, fp, prev_fp, w using walk_loop.induct arch K g task with
  | case1 trace fp prev_fp w h1 h2 =>
    rw [walk_loop]; simp only [h1, h2, if_true]; exact ⟨[], by simp⟩
  | case2 trace fp prev_fp w h1 h2 h3 =>
    rw [walk_loop]; simp only [h1, h2, h3, if_true, if_false]; exact ⟨[], by simp⟩
  | case3 trace fp prev_fp w h1 h2 h3 h4 =>
    rw [walk_loop]; simp only [h1, h2, h3, h4, if_true, if_false]; exact ⟨[], by simp⟩
  | case4 trace fp prev_fp w h1 h2 h3 h4 r h5 =>
    rw [walk_loop]; simp only [h1, h2, h3, h4, if_true, if_false]
    rw [if_pos h5]; simp only [Bool.true_eq_false, if_false]
    exact ⟨[Event.vm_read_overwrite task fp 16], rfl, by simp [Event.is_walk_step]⟩
  | case5 trace fp prev_fp w h1 h2 h3 h4 r h5 ra h6 =>
    rw [walk_loop]; simp only [h1, h2, h3, h4, if_true, if_false]
    rw [if_neg h5, if_pos h6]; simp only [Bool.true_eq_false, if_false]
    exact ⟨[Event.vm_read_overwrite task fp 16], rfl, by simp [Event.is_walk_step]⟩
  | case6 trace fp prev_fp w h1 h2 h3 h4 r h5 nf ra h6 h7 =>
    rw [walk_loop]; simp only [h1, h2, h3, h4, if_true, if_false]
    rw [if_neg h5, if_neg h6, if_pos h7]; simp only [Bool.true_eq_false, if_false]
    refine ⟨[Event.vm_read_overwrite task fp 16, Event.frame_store trace.frame_count], ?_, ?_⟩
    · simp [World.emit, read_memory]
    · simp [Event.is_walk_step, h1]
  | case7 trace fp prev_fp w h1 h2 h3 h4 r h5 nf ra h6 w1 trace1 h7 ih =>
    rw [walk_loop]; simp only [h1, h2, h3, h4, if_true, if_false]
    rw [if_neg h5, if_neg h6, if_neg h7]; simp only [Bool.true_eq_false, if_false]
    obtain ⟨l, hl, hall⟩ := ih
    refine ⟨[Event.vm_read_overwrite task fp 16, Event.frame_store trace.frame_count] ++ l,
      ?_, ?_⟩
    · rw [hl]; simp [w1, r, World.emit, read_memory]
    · intro e he
      rcases List.mem_append.mp he with h | h
      · simp at h
        rcases h with h | h <;> subst h <;> simp [Event.is_walk_step, h1]
      · have := hall e h
        revert this
        cases e <;> simp [Event.is_walk_step, trace1, StackTrace.add_frame]
        omega
  | case8 trace fp prev_fp w h1 =>
    rw [walk_loop]; simp only [h1, if_false]; exact ⟨[], by simp⟩


/-! ### The frame-pointer walk -/

/-- The result code of `walk_stack_frame_pointer` is always 0. -/
theorem walk_returns_zero {σ : Type} (arch : Arch) (K : Kernel σ) (g : Globals) (task : Nat)
    (state : cpu_state_t) (trace : StackTrace) (w : World σ) :
    (walk_stack_frame_pointer arch K g task state trace w).1 = 0 := by
  unfold walk_stack_frame_pointer
  simp only []
  split_ifs <;> rfl

/-- The trace of `walk_stack_frame_pointer` when `pc` is plausible: frame 0 is
`{pc, fp}` and the chain loop extends the one-frame trace. -/
theorem walk_extends_of_pc {σ : Type} (arch : Arch) (K : Kernel σ) (g : Globals) (task : Nat)
    (state : cpu_state_t) (trace : StackTrace) (w : World σ)
    (hpc : is_valid_address arch (GET_PC state) = true) :
    WalkExtends arch g.g_config.max_depth
      (StackTrace.add_frame { trace with frame_count := 0 } (GET_PC state) (GET_FP state))
      (walk_stack_frame_pointer arch K g task state trace w).2.1 (GET_FP state) 0 := by
  unfold walk_stack_frame_pointer
  simp only [hpc, if_true]
  exact walk_loop_extends _ _ _ _ _ _ _ _

/-- The trace of `walk_stack_frame_pointer` when `pc` is implausible: the chain
loop (if entered at all) extends the empty trace. -/
theorem walk_extends_of_not_pc {σ : Type} (arch : Arch) (K : Kernel σ) (g : Globals)
    (task : Nat) (state : cpu_state_t) (trace : StackTrace) (w : World σ)
    (hpc : is_valid_address arch (GET_PC state) = false) :
    WalkExtends arch g.g_config.max_depth { trace with frame_count := 0 }
      (walk_stack_frame_pointer arch K g task state trace w).2.1 (GET_FP state) 0 := by
  unfold walk_stack_frame_pointer
  simp only [hpc, Bool.false_eq_true, if_false]
  by_cases hfp : is_valid_address arch (GET_FP state) = false
  · simp only [hfp, if_true]
    exact WalkExtends.same _ _ _ _ _
  · simp only [hfp, if_false]
    exact walk_loop_extends _ _ _ _ _ _ _ _

/-- C4: every frame of the trace returned by `walk_stack_frame_pointer` has an
address accepted by `is_valid_address`, for every register state, kernel and
configuration. -/
theorem walk_addresses_plausible {σ : Type} (arch : Arch) (K : Kernel σ) (g : Globals)
    (task : Nat) (state : cpu_state_t) (trace : StackTrace) (w : World σ) (i : Nat)
    (hi : i < (walk_stack_frame_pointer arch K g task state trace w).2.1.frame_count) :
    is_valid_address arch
      ((walk_stack_frame_pointer arch K g task state trace w).2.1.frames i).address = true := by
  cases hpc : is_valid_address arch (GET_PC state)
  · obtain ⟨_, _, _, _, _, _, h7, _, _⟩ := walk_extends_of_not_pc arch K g task state trace w hpc
    exact (h7 i (Nat.zero_le _) hi).1
  · obtain ⟨_, _, _, _, _, h6, h7, _, _⟩ := walk_extends_of_pc arch K g task state trace w hpc
    simp only [StackTrace.add_frame] at h6 h7
    rcases Nat.eq_zero_or_pos i with h0 | hpos
    · subst h0
      rw [h6 0 (by omega)]
      simpa using hpc
    · exact (h7 i (by omega) hi).1

/-- C4 at work: the three addresses of the trace walked over `low_chain_mem`. -/
theorem walk_addresses_plausible_witness :
    2 < (walk_stack_frame_pointer Arch.x86_64 low_chain_kernel
      (stack_walker_init none initial_globals) 1 low_chain_state StackTrace.zero
      fresh_world).2.1.frame_count ∧
    is_valid_address Arch.x86_64
      ((walk_stack_frame_pointer Arch.x86_64 low_chain_kernel
        (stack_walker_init none initial_globals) 1 low_chain_state StackTrace.zero
        fresh_world).2.1.frames 2).address = true :=
  ⟨by simp [walk_stack_frame_pointer, walk_loop, stack_walker_init, initial_globals,
      is_valid_address, GET_PC, GET_FP, StackTrace.add_frame, StackTrace.zero,
      MAX_STACK_DEPTH, low_chain_kernel, table_kernel, low_chain_mem, low_chain_state,
      read_memory, World.emit, fresh_world, KERN_SUCCESS],
   walk_addresses_plausible _ _ _ _ _ _ _ 2
    (by simp [walk_stack_frame_pointer, walk_loop, stack_walker_init, initial_globals,
      is_valid_address, GET_PC, GET_FP, StackTrace.add_frame, StackTrace.zero,
      MAX_STACK_DEPTH, low_chain_kernel, table_kernel, low_chain_mem, low_chain_state,
      read_memory, World.emit, fresh_world, KERN_SUCCESS])⟩


/-- The walk over `low_chain_mem` with the default configuration: three frames,
the first two at the same frame pointer. -/
theorem low_chain_walk :
    (walk_stack_frame_pointer Arch.x86_64 low_chain_kernel
      (stack_walker_init none initial_globals) 1 low_chain_state StackTrace.zero
      fresh_world).2.1.frame_count = 3 ∧
    (walk_stack_frame_pointer Arch.x86_64 low_chain_kernel
      (stack_walker_init none initial_globals) 1 low_chain_state StackTrace.zero
      fresh_world).2.1.frames 0 = { address := 0x100004000, frame_pointer := 0x100000 } ∧
    (walk_stack_frame_pointer Arch.x86_64 low_chain_kernel
      (stack_walker_init none initial_globals) 1 low_chain_state StackTrace.zero
      fresh_world).2.1.frames 1 = { address := 0x100004200, frame_pointer := 0x100000 } ∧
    (walk_stack_frame_pointer Arch.x86_64 low_chain_kernel
      (stack_walker_init none initial_globals) 1 low_chain_state StackTrace.zero
      fresh_world).2.1.frames 2 = { address := 0x100004400, frame_pointer := 0x100100 } := by
  simp [walk_stack_frame_pointer, walk_loop, stack_walker_init, initial_globals,
    is_valid_address, GET_PC, GET_FP, StackTrace.add_frame, StackTrace.zero,
    MAX_STACK_DEPTH, low_chain_kernel, table_kernel, low_chain_mem, low_chain_state,
    read_memory, World.emit, fresh_world, KERN_SUCCESS, Function.update]

/-- C3 as stated fails: over `low_chain_mem` the trace has three frames and frame 1
has the same frame pointer as frame 0, not a larger one. -/
theorem frame_pointers_not_strict_at_pc_frame :
    2 ≤ (walk_stack_frame_pointer Arch.x86_64 low_chain_kernel
      (stack_walker_init none initial_globals) 1 low_chain_state StackTrace.zero
      fresh_world).2.1.frame_count ∧
    ¬ (∀ i, i + 1 < (walk_stack_frame_pointer Arch.x86_64 low_chain_kernel
        (stack_walker_init none initial_globals) 1 low_chain_state StackTrace.zero
        fresh_world).2.1.frame_count →
      ((walk_stack_frame_pointer Arch.x86_64 low_chain_kernel
        (stack_walker_init none initial_globals) 1 low_chain_state StackTrace.zero
        fresh_world).2.1.frames (i + 1)).frame_pointer >
      ((walk_stack_frame_pointer Arch.x86_64 low_chain_kernel
        (stack_walker_init none initial_globals) 1 low_chain_state StackTrace.zero
        fresh_world).2.1.frames i).frame_pointer) := by
  obtain ⟨hc, h0, h1, _⟩ := low_chain_walk
  refine ⟨by omega, fun h => ?_⟩
  have := h 0 (by omega)
  rw [h0, h1] at this
  exact absurd this (by decide)

/-- C3 amended: in the trace returned by `walk_stack_frame_pointer`, frame
pointers strictly increase from each frame to the next, except from frame 0 to
frame 1 when frame 0 is the `pc` frame (`pc` plausible): those two frames carry
the same frame pointer. -/
theorem walk_frame_pointers_increase {σ : Type} (arch : Arch) (K : Kernel σ) (g : Globals)
    (task : Nat) (state : cpu_state_t) (trace : StackTrace) (w : World σ) (i : Nat)
    (hi : i + 1 < (walk_stack_frame_pointer arch K g task state trace w).2.1.frame_count) :
    (i = 0 ∧ is_valid_address arch (GET_PC state) = true →
      ((walk_stack_frame_pointer arch K g task state trace w).2.1.frames 1).frame_pointer =
      ((walk_stack_frame_pointer arch K g task state trace w).2.1.frames 0).frame_pointer) ∧
    (¬ (i = 0 ∧ is_valid_address arch (GET_PC state) = true) →
      ((walk_stack_frame_pointer arch K g task state trace w).2.1.frames (i + 1)).frame_pointer >
      ((walk_stack_frame_pointer arch K g task state trace w).2.1.frames i).frame_pointer) := by
  cases hpc : is_valid_address arch (GET_PC state)
  · obtain ⟨_, _, _, _, _, _, _, _, h9⟩ :=
      walk_extends_of_not_pc arch K g task state trace w hpc
    refine ⟨fun h => absurd h.2 (by simp), fun _ => ?_⟩
    exact (h9 i (Nat.zero_le _) hi).1
  · obtain ⟨_, _, _, _, _, h6, _, h8, h9⟩ :=
      walk_extends_of_pc arch K g task state trace w hpc
    simp only [StackTrace.add_frame] at h6 h8 h9
    constructor
    · rintro ⟨h0, _⟩
      subst h0
      rw [(h8 (by omega)).1, h6 0 (by omega)]
      simp
    · intro hne
      have hpos : 1 ≤ i := by
        rcases Nat.eq_zero_or_pos i with h0 | hpos
        · exact absurd ⟨h0, rfl⟩ hne
        · exact hpos
      exact (h9 i (by omega) hi).1

/-- C3 amended at work: frames 1 and 2 of the trace walked over `low_chain_mem`. -/
theorem walk_frame_pointers_increase_witness :
    1 + 1 < (walk_stack_frame_pointer Arch.x86_64 low_chain_kernel
      (stack_walker_init none initial_globals) 1 low_chain_state StackTrace.zero
      fresh_world).2.1.frame_count ∧
    ((walk_stack_frame_pointer Arch.x86_64 low_chain_kernel
      (stack_walker_init none initial_globals) 1 low_chain_state StackTrace.zero
      fresh_world).2.1.frames (1 + 1)).frame_pointer >
    ((walk_stack_frame_pointer Arch.x86_64 low_chain_kernel
      (stack_walker_init none initial_globals) 1 low_chain_state StackTrace.zero
      fresh_world).2.1.frames 1).frame_pointer :=
  ⟨by rw [low_chain_walk.1]; decide,
   (walk_frame_pointers_increase Arch.x86_64 low_chain_kernel
      (stack_walker_init none initial_globals) 1 low_chain_state StackTrace.zero fresh_world 1
      (by rw [low_chain_walk.1]; decide)).2 (by decide)⟩


/-- C1 on the code: on the three-frame chain of end-to-end scenario 1 (x86-64,
`pc = 0x100004000`, `fp = 0x7ff000001000`) the walk returns 0 with a single
frame `{pc, fp}` and issues no memory read, both with `max_depth = 512` and with
`max_depth = 2`: the first pass through the loop compares `fp` with
`prev_fp = 0` and stops on `fp - prev_fp > 0x100000`. -/
theorem walk_chain3_stops_after_pc :
    (walk_stack_frame_pointer Arch.x86_64 chain3_kernel
      (stack_walker_init (some (depth_config 512)) initial_globals) 1 chain3_state
      StackTrace.zero fresh_world).1 = 0 ∧
    (walk_stack_frame_pointer Arch.x86_64 chain3_kernel
      (stack_walker_init (some (depth_config 512)) initial_globals) 1 chain3_state
      StackTrace.zero fresh_world).2.1.frame_count = 1 ∧
    (walk_stack_frame_pointer Arch.x86_64 chain3_kernel
      (stack_walker_init (some (depth_config 512)) initial_globals) 1 chain3_state
      StackTrace.zero fresh_world).2.1.frames 0
        = { address := 0x100004000, frame_pointer := 0x7ff000001000 } ∧
    (walk_stack_frame_pointer Arch.x86_64 chain3_kernel
      (stack_walker_init (some (depth_config 512)) initial_globals) 1 chain3_state
      StackTrace.zero fresh_world).2.2.calls = [Event.frame_store 0] ∧
    (walk_stack_frame_pointer Arch.x86_64 chain3_kernel
      (stack_walker_init (some (depth_config 2)) initial_globals) 1 chain3_state
      StackTrace.zero fresh_world).2.1.frame_count = 1 := by
  simp [walk_stack_frame_pointer, walk_loop, stack_walker_init, initial_globals, depth_config,
    is_valid_address, GET_PC, GET_FP, StackTrace.add_frame, StackTrace.zero,
    MAX_STACK_DEPTH, chain3_kernel, table_kernel, chain3_mem, chain3_state,
    read_memory, World.emit, fresh_world, KERN_SUCCESS, Function.update]

/-- C2 on the code: with `max_depth = 0` installed through `stack_walker_init`, a
capture of a thread whose `pc` is plausible succeeds with `frame_count = 1`,
above `min(0, MAX_STACK_DEPTH) = 0`: frame 0 is stored before the depth is looked at. -/
theorem capture_depth_zero_keeps_pc_frame :
    (stack_walker_init (some (depth_config 0)) initial_globals).g_config.max_depth = 0 ∧
    (stack_walker_capture Arch.x86_64 chain3_kernel
      (stack_walker_init (some (depth_config 0)) initial_globals) 1 7 StackTrace.zero
      fresh_world).1 = 0 ∧
    (stack_walker_capture Arch.x86_64 chain3_kernel
      (stack_walker_init (some (depth_config 0)) initial_globals) 1 7 StackTrace.zero
      fresh_world).2.1.frame_count = 1 ∧
    ¬ ((stack_walker_capture Arch.x86_64 chain3_kernel
      (stack_walker_init (some (depth_config 0)) initial_globals) 1 7 StackTrace.zero
      fresh_world).2.1.frame_count ≤ min 0 MAX_STACK_DEPTH) := by
  simp [stack_walker_capture, capture_begin, stack_walker_get_thread_id, get_timestamp_ns,
    walk_stack_frame_pointer, walk_loop, stack_walker_init, initial_globals, depth_config,
    is_valid_address, GET_PC, GET_FP, StackTrace.add_frame, StackTrace.zero,
    MAX_STACK_DEPTH, chain3_kernel, table_kernel, chain3_mem, chain3_state,
    read_memory, World.emit, fresh_world, KERN_SUCCESS, Function.update]


/-- Widening the index range keeps a walk step a walk step. -/
theorem Event.is_walk_step_mono (task lo hi lo1 hi1 : Nat) (e : Event) (hlo : lo1 ≤ lo)
    (hhi : hi ≤ hi1) (h : Event.is_walk_step task lo hi e = true) :
    Event.is_walk_step task lo1 hi1 e = true := by
  cases e <;> simp_all [Event.is_walk_step]
  omega

/-- The calls of `walk_stack_frame_pointer`: 16-byte reads in `task` and stores
into `frames`, nothing else. -/
theorem walk_calls {σ : Type} (arch : Arch) (K : Kernel σ) (g : Globals) (task : Nat)
    (state : cpu_state_t) (trace : StackTrace) (w : World σ) :
    ∃ l, (walk_stack_frame_pointer arch K g task state trace w).2.2.calls = w.calls ++ l ∧
      ∀ e ∈ l, Event.is_walk_step task 0 (max 1 g.g_config.max_depth) e = true := by
  unfold walk_stack_frame_pointer
  by_cases hpc : is_valid_address arch (GET_PC state) = true
  · simp only [hpc, if_true]
    obtain ⟨l, hl, hall⟩ := walk_loop_calls arch K g task
      (StackTrace.add_frame { trace with frame_count := 0 } (GET_PC state) (GET_FP state))
      (GET_FP state) 0 (w.emit w.kstate (Event.frame_store 0))
    refine ⟨Event.frame_store 0 :: l, ?_, ?_⟩
    · rw [hl]; simp [World.emit]
    · intro e he
      rcases List.mem_cons.mp he with h | h
      · subst h; simp [Event.is_walk_step]
      · exact Event.is_walk_step_mono task _ _ _ _ e (Nat.zero_le _) (le_max_right _ _)
          (hall e h)
  · simp only [hpc, if_false]
    by_cases hfp : is_valid_address arch (GET_FP state) = false
    · simp only [hfp, if_true]
      exact ⟨[], by simp, by simp⟩
    · simp only [hfp, if_false]
      obtain ⟨l, hl, hall⟩ := walk_loop_calls arch K g task
        { trace with frame_count := 0 } (GET_FP state) 0 w
      exact ⟨l, hl, fun e he => Event.is_walk_step_mono task _ _ _ _ e (Nat.zero_le _)
        (le_max_right _ _) (hall e he)⟩

/-- The only call of `stack_walker_get_thread_id` is the identifier query. -/
theorem get_thread_id_calls {σ : Type} (K : Kernel σ) (thread : Nat) (w : World σ) :
    (stack_walker_get_thread_id K thread w).2.calls = w.calls ++ [Event.thread_info thread] := by
  unfold stack_walker_get_thread_id
  simp only []
  split_ifs <;> rfl

/-- The calls of `capture_begin`: the thread identifier query and, when enabled,
the clock. -/
theorem capture_begin_calls {σ : Type} (K : Kernel σ) (g : Globals) (thread : Nat)
    (trace : StackTrace) (w : World σ) :
    ∃ pre, (capture_begin K g thread trace w).2.2.calls = w.calls ++ pre ∧
      ∀ e ∈ pre, e = Event.thread_info thread ∨ e = Event.clock_gettime := by
  unfold capture_begin
  simp only []
  split_ifs
  all_goals first
    | (refine ⟨[Event.thread_info thread, Event.clock_gettime], ?_, by simp⟩
       simp [get_timestamp_ns, get_thread_id_calls, World.emit]
       done)
    | (refine ⟨[Event.thread_info thread], ?_, by simp⟩
       simp [get_thread_id_calls])

/-- C6: the kernel calls of one `stack_walker_capture`, for every kernel. Before
the suspension only the identifier query and the clock are called (`pre`). If
`thread_suspend` fails with `kr`, the capture returns `kr` and the suspension is
its last call: no `thread_get_state`, no `thread_resume`, no memory read. If it
succeeds, the calls after it are `thread_get_state`, then the steps of the walk
(`m`: memory reads and frame stores only), then one `thread_resume` as the very
last call; and when `thread_get_state` fails with `kr`, the capture returns `kr`
and `m` is empty. -/
theorem capture_suspend_resume_protocol {σ : Type} (arch : Arch) (K : Kernel σ) (g : Globals)
    (task thread : Nat) (trace : StackTrace) (w : World σ) :
    ∃ pre, (∀ e ∈ pre, e = Event.thread_info thread ∨ e = Event.clock_gettime) ∧
      (capture_begin K g thread trace w).2.2.calls = w.calls ++ pre ∧
      ((K.thread_suspend thread (capture_begin K g thread trace w).2.2.kstate).1
          ≠ KERN_SUCCESS →
        (stack_walker_capture arch K g task thread trace w).1
          = (K.thread_suspend thread (capture_begin K g thread trace w).2.2.kstate).1 ∧
        (stack_walker_capture arch K g task thread trace w).2.2.2.calls
          = w.calls ++ pre ++ [Event.thread_suspend thread]) ∧
      ((K.thread_suspend thread (capture_begin K g thread trace w).2.2.kstate).1
          = KERN_SUCCESS →
        ∃ m, (∀ e ∈ m, Event.is_walk_step task 0
              (max 1 (capture_begin K g thread trace w).2.1.g_config.max_depth) e = true) ∧
          (stack_walker_capture arch K g task thread trace w).2.2.2.calls
            = w.calls ++ pre ++ [Event.thread_suspend thread, Event.thread_get_state thread]
                ++ m ++ [Event.thread_resume thread] ∧
          ((K.thread_get_state thread
              (K.thread_suspend thread (capture_begin K g thread trace w).2.2.kstate).2).1.1
              ≠ KERN_SUCCESS →
            (stack_walker_capture arch K g task thread trace w).1
              = (K.thread_get_state thread
                  (K.thread_suspend thread
                    (capture_begin K g thread trace w).2.2.kstate).2).1.1 ∧
            m = [])) := by
  obtain ⟨pre, hpre, hall⟩ := capture_begin_calls K g thread trace w
  refine ⟨pre, hall, hpre, ?_, ?_⟩
  · intro hs
    unfold stack_walker_capture
    simp only [hs, ne_eq, not_false_eq_true, if_true, World.emit, hpre, true_and]
  · intro hs
    unfold stack_walker_capture
    simp only [hs, ne_eq, not_true_eq_false, if_false, World.emit]
    by_cases hg : (K.thread_get_state thread
        (K.thread_suspend thread (capture_begin K g thread trace w).2.2.kstate).2).1.1
          = KERN_SUCCESS
    · simp only [hg, not_true_eq_false, if_false, false_implies, and_true]
      obtain ⟨m, hm, hmall⟩ := walk_calls arch K (capture_begin K g thread trace w).2.1 task
        (K.thread_get_state thread
          (K.thread_suspend thread (capture_begin K g thread trace w).2.2.kstate).2).1.2
        (capture_begin K g thread trace w).1
        { kstate := (K.thread_get_state thread
            (K.thread_suspend thread (capture_begin K g thread trace w).2.2.kstate).2).2
          calls := (capture_begin K g thread trace w).2.2.calls
            ++ [Event.thread_suspend thread] ++ [Event.thread_get_state thread] }
      refine ⟨m, hmall, ?_⟩
      cases hstrat : (capture_begin K g thread trace w).2.1.g_config.strategy <;>
        simp only [hstrat] <;> rw [hm, hpre] <;> simp
    · refine ⟨[], by simp, ?_⟩
      simp only [hg, not_false_eq_true, if_true, hpre, true_and, implies_true, and_true]
      simp

/-- C6 at work: a failing suspension (`suspend_fail_kernel`) returns its status 4,
a succeeding one (`low_chain_kernel`) ends with the single resume, and a failing
register read (`state_fail_kernel`) returns its status 5. -/
theorem capture_suspend_resume_protocol_witness :
    (stack_walker_capture Arch.x86_64 suspend_fail_kernel initial_globals 1 7
      StackTrace.zero fresh_world).1 = 4 ∧
    (∃ pre m, (stack_walker_capture Arch.x86_64 low_chain_kernel initial_globals 1 7
      StackTrace.zero fresh_world).2.2.2.calls
        = [] ++ pre ++ [Event.thread_suspend 7, Event.thread_get_state 7] ++ m
          ++ [Event.thread_resume 7]) ∧
    (stack_walker_capture Arch.x86_64 state_fail_kernel initial_globals 1 7
      StackTrace.zero fresh_world).1 = 5 := by
  refine ⟨?_, ?_, ?_⟩
  · obtain ⟨_, _, _, hfail, _⟩ := capture_suspend_resume_protocol Arch.x86_64
      suspend_fail_kernel initial_globals 1 7 StackTrace.zero fresh_world
    exact (hfail (by simp [suspend_fail_kernel, table_kernel, KERN_SUCCESS])).1
  · obtain ⟨pre, _, _, _, hok⟩ := capture_suspend_resume_protocol Arch.x86_64
      low_chain_kernel initial_globals 1 7 StackTrace.zero fresh_world
    obtain ⟨m, _, hm, _⟩ := hok (by simp [low_chain_kernel, table_kernel, KERN_SUCCESS])
    exact ⟨pre, m, hm⟩
  · obtain ⟨_, _, _, _, hok⟩ := capture_suspend_resume_protocol Arch.x86_64
      state_fail_kernel initial_globals 1 7 StackTrace.zero fresh_world
    obtain ⟨_, _, _, hst⟩ := hok (by simp [state_fail_kernel, table_kernel, KERN_SUCCESS])
    exact (hst (by simp [state_fail_kernel, table_kernel, KERN_SUCCESS])).1


/-! ### The batch walker -/

/-- The trace a capture is handed is overwritten before it is read. -/
theorem capture_ignores_trace {σ : Type} (arch : Arch) (K : Kernel σ) (g : Globals)
    (task thread : Nat) (t1 t2 : StackTrace) (w : World σ) :
    stack_walker_capture arch K g task thread t1 w
      = stack_walker_capture arch K g task thread t2 w := rfl

/-- The trace of `walk_stack_frame_pointer` keeps the thread handle of its argument. -/
theorem walk_keeps_thread {σ : Type} (arch : Arch) (K : Kernel σ) (g : Globals) (task : Nat)
    (state : cpu_state_t) (trace : StackTrace) (w : World σ) :
    (walk_stack_frame_pointer arch K g task state trace w).2.1.thread = trace.thread := by
  cases hpc : is_valid_address arch (GET_PC state)
  · exact (walk_extends_of_not_pc arch K g task state trace w hpc).2.2.1
  · exact (walk_extends_of_pc arch K g task state trace w hpc).2.2.1

/-- The trace of a capture names the captured thread. -/
theorem capture_thread {σ : Type} (arch : Arch) (K : Kernel σ) (g : Globals)
    (task thread : Nat) (trace : StackTrace) (w : World σ) :
    (stack_walker_capture arch K g task thread trace w).2.1.thread = thread := by
  have hb : (capture_begin K g thread trace w).1.thread = thread := by
    unfold capture_begin
    simp only []
    split_ifs <;> rfl
  unfold stack_walker_capture
  simp only []
  split_ifs
  · exact hb
  · exact hb
  · split <;> rw [walk_keeps_thread] <;> exact hb

/-- Capturing a list extended by one thread: the captures of the list, then the
capture of the last thread. -/
theorem capture_each_append {σ : Type} (arch : Arch) (K : Kernel σ) (task : Nat)
    (ts : List Nat) (t : Nat) (g : Globals) (w : World σ) :
    capture_each arch K task (ts ++ [t]) g w =
      ((capture_each arch K task ts g w).1 ++
        [((stack_walker_capture arch K (capture_each arch K task ts g w).2.1 task t
            StackTrace.zero (capture_each arch K task ts g w).2.2).1,
          (stack_walker_capture arch K (capture_each arch K task ts g w).2.1 task t
            StackTrace.zero (capture_each arch K task ts g w).2.2).2.1)],
        (stack_walker_capture arch K (capture_each arch K task ts g w).2.1 task t
            StackTrace.zero (capture_each arch K task ts g w).2.2).2.2) := by
  induction ts generalizing g w with
  | nil => rfl
  | cons a rest ih =>
    rw [List.cons_append, capture_each, ih]
    simp only [capture_each, List.cons_append]

/-- One capture per thread. -/
theorem capture_each_length {σ : Type} (arch : Arch) (K : Kernel σ) (task : Nat)
    (ts : List Nat) (g : Globals) (w : World σ) :
    (capture_each arch K task ts g w).1.length = ts.length := by
  induction ts generalizing g w with
  | nil => rfl
  | cons a rest ih => simp only [capture_each, List.length_cons, ih]

/-- The loop of `stack_walker_capture_batch` against `capture_each`: the count is
the number of counted captures, the output array holds the trace of capture `i`
at index `i` and is untouched from `threads.length` on, and globals and world
are those `capture_each` leaves. -/
theorem capture_batch_eq {σ : Type} (arch : Arch) (K : Kernel σ) (task : Nat)
    (threads : List Nat) (g : Globals) (traces : Nat → StackTrace) (w : World σ) :
    (stack_walker_capture_batch arch K g task threads threads.length traces w).1
      = ((capture_each arch K task threads g w).1.countP counted_capture : Nat) ∧
    (∀ i, (stack_walker_capture_batch arch K g task threads threads.length traces w).2.1 i
      = if i < threads.length then
          ((capture_each arch K task threads g w).1.getD i (0, StackTrace.zero)).2
        else traces i) ∧
    (stack_walker_capture_batch arch K g task threads threads.length traces w).2.2
      = (capture_each arch K task threads g w).2 := by
  induction threads using List.reverseRecOn with
  | nil => exact ⟨rfl, fun i => by simp [stack_walker_capture_batch], rfl⟩
  | append_singleton ts t ih =>
    obtain ⟨ih1, ih2, ih3⟩ := ih
    have hpre : (List.range ts.length).foldl (capture_batch_step arch K task (ts ++ [t]))
          (0, traces, g, w)
        = stack_walker_capture_batch arch K g task ts ts.length traces w := by
      unfold stack_walker_capture_batch
      apply List.foldl_ext
      intro st i hi
      have hi1 : i < ts.length := List.mem_range.mp hi
      simp only [capture_batch_step, List.getD_append _ _ _ _ hi1]
    have hlast : (ts ++ [t]).getD ts.length 0 = t := by
      simp [List.getD_eq_getElem?_getD]
    have hstep : stack_walker_capture_batch arch K g task (ts ++ [t]) (ts ++ [t]).length
          traces w
        = capture_batch_step arch K task (ts ++ [t])
            (stack_walker_capture_batch arch K g task ts ts.length traces w) ts.length := by
      rw [← hpre]
      simp only [stack_walker_capture_batch, List.length_append, List.length_singleton,
        List.range_succ, List.foldl_append, List.foldl_cons, List.foldl_nil]
    rw [hstep, capture_each_append]
    have hlen := capture_each_length arch K task ts g w
    refine ⟨?_, ?_, ?_⟩
    · simp only [capture_batch_step, hlast, ih3,
        capture_ignores_trace arch K _ task t _ StackTrace.zero]
      rw [List.countP_append, ih1]
      simp only [Function.update_same, List.countP_cons, List.countP_nil, counted_capture]
      split_ifs <;> simp_all
    · intro i
      simp only [capture_batch_step, hlast, ih3,
        capture_ignores_trace arch K _ task t _ StackTrace.zero,
        List.length_append, List.length_singleton]
      by_cases hi : i = ts.length
      · subst hi
        simp [List.getD_eq_getElem?_getD, ← hlen]
      · rw [Function.update_noteq hi, ih2 i]
        by_cases hlt : i < ts.length
        · have h1 : i < ts.length + 1 := by omega
          rw [List.getD_append _ _ _ _ (by omega)]
          simp only [hlt, h1, if_true]
        · have h1 : ¬ i < ts.length + 1 := by omega
          simp only [hlt, h1, if_false]
    · simp only [capture_batch_step, hlast, ih3,
        capture_ignores_trace arch K _ task t _ StackTrace.zero]


/-- Entry `i` of `capture_each` is the capture of thread `i`, run from the globals
and the world left by the captures of the threads before it. -/
theorem capture_each_getD {σ : Type} (arch : Arch) (K : Kernel σ) (task : Nat)
    (ts : List Nat) (g : Globals) (w : World σ) (i : Nat) (hi : i < ts.length)
    (d : Int × StackTrace) :
    (capture_each arch K task ts g w).1.getD i d =
      ((stack_walker_capture arch K (capture_each arch K task (ts.take i) g w).2.1 task
          (ts.getD i 0) StackTrace.zero (capture_each arch K task (ts.take i) g w).2.2).1,
        (stack_walker_capture arch K (capture_each arch K task (ts.take i) g w).2.1 task
          (ts.getD i 0) StackTrace.zero (capture_each arch K task (ts.take i) g w).2.2).2.1) := by
  induction ts generalizing g w i with
  | nil => simp at hi
  | cons a rest ih =>
    cases i with
    | zero => simp [capture_each]
    | succ j =>
      have hj : j < rest.length := by simpa using hi
      simp only [capture_each, List.take_succ_cons, List.getD_cons_succ]
      exact ih _ _ j hj

/-- C10: `stack_walker_capture_batch` over a thread array of `threads.length`
elements, for every kernel. Its result is the number of captures, among those of
`threads[0]`, `threads[1]`, ... taken in this order, that returned 0 with
`frame_count > 0`; `traces[i]` is the trace of the capture of `threads[i]` (run
after the captures of the threads before it) and names `threads[i]`; entries
from `threads.length` on are untouched; and with `thread_count = 0` the call
returns 0 and leaves the array, the globals and the world as they were. -/
theorem capture_batch_counts_in_order {σ : Type} (arch : Arch) (K : Kernel σ) (task : Nat)
    (threads : List Nat) (g : Globals) (traces : Nat → StackTrace) (w : World σ) :
    (stack_walker_capture_batch arch K g task threads threads.length traces w).1
      = ((capture_each arch K task threads g w).1.countP counted_capture : Nat) ∧
    (∀ i, i < threads.length →
      (stack_walker_capture_batch arch K g task threads threads.length traces w).2.1 i
        = (stack_walker_capture arch K (capture_each arch K task (threads.take i) g w).2.1
            task (threads.getD i 0) (traces i)
            (capture_each arch K task (threads.take i) g w).2.2).2.1 ∧
      (capture_each arch K task threads g w).1.getD i (0, StackTrace.zero)
        = ((stack_walker_capture arch K (capture_each arch K task (threads.take i) g w).2.1
            task (threads.getD i 0) (traces i)
            (capture_each arch K task (threads.take i) g w).2.2).1,
          (stack_walker_capture arch K (capture_each arch K task (threads.take i) g w).2.1
            task (threads.getD i 0) (traces i)
            (capture_each arch K task (threads.take i) g w).2.2).2.1) ∧
      ((stack_walker_capture_batch arch K g task threads threads.length traces w).2.1
        i).thread = threads.getD i 0) ∧
    (∀ i, threads.length ≤ i →
      (stack_walker_capture_batch arch K g task threads threads.length traces w).2.1 i
        = traces i) ∧
    stack_walker_capture_batch arch K g task threads 0 traces w = (0, traces, g, w) := by
  obtain ⟨h1, h2, _⟩ := capture_batch_eq arch K task threads g traces w
  refine ⟨h1, ?_, ?_, rfl⟩
  · intro i hi
    have hget := capture_each_getD arch K task threads g w i hi (0, StackTrace.zero)
    rw [capture_ignores_trace arch K _ task _ StackTrace.zero (traces i)] at hget
    have htr := h2 i
    rw [if_pos hi, hget] at htr
    refine ⟨htr, hget, ?_⟩
    rw [htr]
    exact capture_thread _ _ _ _ _ _ _
  · intro i hi
    rw [h2 i, if_neg (by omega)]

/-- C10 at work: with threads 7 and 8, where suspending 7 fails, the batch counts
one capture and the second trace names thread 8. -/
theorem capture_batch_counts_in_order_witness :
    (1 < [7, 8].length) ∧
    ((stack_walker_capture_batch Arch.x86_64 first_fails_kernel initial_globals 1 [7, 8]
      [7, 8].length (fun _ => StackTrace.zero) fresh_world).2.1 1).thread
        = [7, 8].getD 1 0 :=
  ⟨by decide,
   ((capture_batch_counts_in_order Arch.x86_64 first_fails_kernel 1 [7, 8] initial_globals
      (fun _ => StackTrace.zero) fresh_world).2.1 1 (by decide)).2.2⟩


/-! ### The statistics of the profiler -/

/-- The count returned by the batch walker lies between 0 and `thread_count`. -/
theorem capture_batch_count_le {σ : Type} (arch : Arch) (K : Kernel σ) (g : Globals)
    (task : Nat) (threads : List Nat) (thread_count : Nat) (traces : Nat → StackTrace)
    (w : World σ) :
    ∃ c : Nat, (stack_walker_capture_batch arch K g task threads thread_count traces w).1 = c ∧
      c ≤ thread_count := by
  induction thread_count with
  | zero => exact ⟨0, rfl, le_refl _⟩
  | succ n ih =>
    obtain ⟨c, hc, hle⟩ := ih
    unfold stack_walker_capture_batch at hc ⊢
    rw [List.range_succ, List.foldl_append]
    simp only [List.foldl_cons, List.foldl_nil]
    rw [capture_batch_step]
    simp only [hc]
    split_ifs
    · exact ⟨c + 1, by push_cast; rfl, by omega⟩
    · exact ⟨c, rfl, by omega⟩

/-- The update of `profiler_capture_thread_stack` keeps the counters balanced. -/
theorem update_stats_single_balanced (stats : ProfilerStats) (result : Int) (frame_count : Nat)
    (h : StatsBalanced stats) : StatsBalanced (update_stats_single stats result frame_count) := by
  unfold StatsBalanced at h ⊢
  unfold update_stats_single
  split_ifs <;> simp only [] <;> omega

/-- The update of `profiler_capture_all_stacks` keeps the counters balanced, for a
count between 0 and `thread_count` and a 32-bit `thread_count`. -/
theorem update_stats_batch_balanced (stats : ProfilerStats) (thread_count c : Nat)
    (traces : Nat → StackTrace) (hc : c ≤ thread_count) (hn : thread_count < 2 ^ 32)
    (h : StatsBalanced stats) :
    StatsBalanced (update_stats_batch stats thread_count (c : Int) traces) := by
  unfold StatsBalanced at h ⊢
  unfold update_stats_batch
  simp only []
  omega


/-- A sampling call, accepted or rejected, keeps `thread_count` and keeps the
counters balanced. -/
theorem run_sample_call_balanced {σ : Type} (arch : Arch) (K : Kernel σ) (p : Process σ)
    (call : SampleCall) (hn : p.target.thread_count < 2 ^ 32)
    (h : StatsBalanced (profiler_get_stats p.target)) :
    (run_sample_call arch K p call).target.thread_count = p.target.thread_count ∧
    StatsBalanced (profiler_get_stats (run_sample_call arch K p call).target) := by
  cases call with
  | thread_stack thread_index trace =>
    simp only [run_sample_call, profiler_capture_thread_stack]
    split_ifs
    · exact ⟨rfl, h⟩
    · exact ⟨rfl, h⟩
    · refine ⟨rfl, ?_⟩
      revert h
      unfold profiler_get_stats
      cases p.target.internal_data with
      | none => exact fun h => h
      | some d => exact fun h => update_stats_single_balanced _ _ _ h
  | all_stacks traces trace_count =>
    simp only [run_sample_call, profiler_capture_all_stacks]
    split_ifs
    · exact ⟨rfl, h⟩
    · refine ⟨rfl, ?_⟩
      obtain ⟨c, hc, hle⟩ := capture_batch_count_le arch K p.globals p.target.task
        (p.target.threads.getD []) p.target.thread_count traces p.world
      revert h
      unfold profiler_get_stats
      cases p.target.internal_data with
      | none => exact fun h => h
      | some d =>
        intro h
        simp only [Option.map_some', hc]
        exact update_stats_batch_balanced _ _ _ _ hle hn h

/-- C8: `total_samples = successful_samples + failed_samples` (as the `uint64_t`
comparison) holds for the statistics `profiler_attach` leaves, whatever its
outcome, and every sequence of `profiler_capture_thread_stack` and
`profiler_capture_all_stacks` calls, accepted or rejected, on a target with a
32-bit `thread_count` takes balanced statistics to balanced statistics, for every
kernel. -/
theorem sampling_keeps_stats_balanced {σ : Type} (arch : Arch) (K : Kernel σ) (pid : Int)
    (config : Option ProfilerConfig) (p0 : Process σ) (calls : List SampleCall)
    (p : Process σ) (hn : p.target.thread_count < 2 ^ 32)
    (h : StatsBalanced (profiler_get_stats p.target)) :
    StatsBalanced (profiler_get_stats (profiler_attach K pid config p0).2.target) ∧
    StatsBalanced (profiler_get_stats (run_sample_calls arch K calls p).target) := by
  constructor
  · unfold profiler_attach
    simp only []
    split_ifs <;> simp [StatsBalanced, profiler_get_stats, ProfilerStats.zero]
  · unfold run_sample_calls
    induction calls generalizing p with
    | nil => exact h
    | cons call rest ih =>
      obtain ⟨h1, h2⟩ := run_sample_call_balanced arch K p call hn h
      exact ih (run_sample_call arch K p call) (by rw [h1]; exact hn) h2

/-- C8 at work: two threads, one failing; a batch call, an accepted single call
and a rejected single call after attach and refresh. -/
theorem sampling_keeps_stats_balanced_witness :
    (attached_process first_fails_kernel).target.thread_count < 2 ^ 32 ∧
    StatsBalanced (profiler_get_stats (attached_process first_fails_kernel).target) ∧
    StatsBalanced (profiler_get_stats (run_sample_calls Arch.x86_64 first_fails_kernel
      [SampleCall.all_stacks (fun _ => StackTrace.zero) 0,
       SampleCall.thread_stack 1 StackTrace.zero,
       SampleCall.thread_stack 2 StackTrace.zero]
      (attached_process first_fails_kernel)).target) :=
  have hn : (attached_process first_fails_kernel).target.thread_count < 2 ^ 32 := by
    simp [attached_process, profiler_refresh_threads, profiler_attach, initial_process,
      first_fails_kernel, table_kernel, KERN_SUCCESS, World.emit, fresh_world]
  have hb : StatsBalanced (profiler_get_stats (attached_process first_fails_kernel).target) := by
    simp [StatsBalanced, profiler_get_stats, ProfilerStats.zero, attached_process,
      profiler_refresh_threads, profiler_attach, initial_process,
      first_fails_kernel, table_kernel, KERN_SUCCESS, World.emit, fresh_world]
  ⟨hn, hb, (sampling_keeps_stats_balanced Arch.x86_64 first_fails_kernel 42 none
    initial_process _ (attached_process first_fails_kernel) hn hb).2⟩

/-- C7 on the code: threads 7 and 8, suspending 7 fails, 8 is captured with one
frame. `profiler_capture_all_stacks` returns 0 with `trace_count = 1`, the traces
hold 0 and 1 frames, and the statistics go from zero to `total_samples = 2`,
`successful_samples = 1`, `failed_samples = 1`, `total_frames = 0`: the loop adds
`traces[0].frame_count`, the frame count of the failed capture, instead of the
one frame of the successful sample at index 1. -/
theorem capture_all_misses_frames_after_failure :
    profiler_get_stats (attached_process first_fails_kernel).target = ProfilerStats.zero ∧
    (profiler_capture_all_stacks Arch.x86_64 first_fails_kernel (fun _ => StackTrace.zero) 0
      (attached_process first_fails_kernel)).1 = 0 ∧
    (profiler_capture_all_stacks Arch.x86_64 first_fails_kernel (fun _ => StackTrace.zero) 0
      (attached_process first_fails_kernel)).2.2.1 = 1 ∧
    ((profiler_capture_all_stacks Arch.x86_64 first_fails_kernel (fun _ => StackTrace.zero) 0
      (attached_process first_fails_kernel)).2.1 0).frame_count = 0 ∧
    ((profiler_capture_all_stacks Arch.x86_64 first_fails_kernel (fun _ => StackTrace.zero) 0
      (attached_process first_fails_kernel)).2.1 1).frame_count = 1 ∧
    profiler_get_stats (profiler_capture_all_stacks Arch.x86_64 first_fails_kernel
      (fun _ => StackTrace.zero) 0 (attached_process first_fails_kernel)).2.2.2.target
      = { total_samples := 2, successful_samples := 1, failed_samples := 1
          total_frames := 0, unique_addresses := 0 } := by
  simp [attached_process, profiler_refresh_threads, profiler_attach, initial_process,
    first_fails_kernel, table_kernel, KERN_SUCCESS, World.emit, fresh_world,
    profiler_get_stats, profiler_capture_all_stacks, stack_walker_capture_batch,
    capture_batch_step, update_stats_batch, add_total_frames, ProfilerStats.zero,
    profiler_default_config, leaf_state, List.range, List.range.loop,
    stack_walker_capture, capture_begin, stack_walker_get_thread_id, get_timestamp_ns,
    walk_stack_frame_pointer, walk_loop, stack_walker_init, initial_globals,
    is_valid_address, GET_PC, GET_FP, StackTrace.add_frame, StackTrace.zero,
    MAX_STACK_DEPTH, read_memory, Function.update]

/-- C9 on the code: one thread with `pc = 0`, `fp = 0`, every kernel call
succeeds. Its capture returns 0 with an empty trace. Through
`profiler_capture_all_stacks` the sample is counted in `failed_samples`
(`failed_samples = 1`, `successful_samples = 0`); through
`profiler_capture_thread_stack` the same sample is counted as successful
(`failed_samples = 0`, `successful_samples = 1`). -/
theorem capture_all_counts_empty_trace_as_failed :
    (stack_walker_capture Arch.x86_64 empty_trace_kernel
      (attached_process empty_trace_kernel).globals
      (attached_process empty_trace_kernel).target.task 7 StackTrace.zero
      (attached_process empty_trace_kernel).world).1 = 0 ∧
    (profiler_capture_all_stacks Arch.x86_64 empty_trace_kernel (fun _ => StackTrace.zero) 0
      (attached_process empty_trace_kernel)).1 = 0 ∧
    ((profiler_capture_all_stacks Arch.x86_64 empty_trace_kernel (fun _ => StackTrace.zero) 0
      (attached_process empty_trace_kernel)).2.1 0).frame_count = 0 ∧
    profiler_get_stats (profiler_capture_all_stacks Arch.x86_64 empty_trace_kernel
      (fun _ => StackTrace.zero) 0 (attached_process empty_trace_kernel)).2.2.2.target
      = { total_samples := 1, successful_samples := 0, failed_samples := 1
          total_frames := 0, unique_addresses := 0 } ∧
    (profiler_capture_thread_stack Arch.x86_64 empty_trace_kernel 0 StackTrace.zero
      (attached_process empty_trace_kernel)).1 = 0 ∧
    profiler_get_stats (profiler_capture_thread_stack Arch.x86_64 empty_trace_kernel 0
      StackTrace.zero (attached_process empty_trace_kernel)).2.2.target
      = { total_samples := 1, successful_samples := 1, failed_samples := 0
          total_frames := 0, unique_addresses := 0 } := by
  simp [attached_process, profiler_refresh_threads, profiler_attach, initial_process,
    empty_trace_kernel, table_kernel, KERN_SUCCESS, World.emit, fresh_world,
    profiler_get_stats, profiler_capture_all_stacks, profiler_capture_thread_stack,
    stack_walker_capture_batch, ProfilerTarget.thread_at, update_stats_single,
    capture_batch_step, update_stats_batch, add_total_frames, ProfilerStats.zero,
    profiler_default_config, empty_state, List.range, List.range.loop,
    stack_walker_capture, capture_begin, stack_walker_get_thread_id, get_timestamp_ns,
    walk_stack_frame_pointer, walk_loop, stack_walker_init, initial_globals,
    is_valid_address, GET_PC, GET_FP, StackTrace.add_frame, StackTrace.zero,
    MAX_STACK_DEPTH, read_memory, Function.update]


/-! ### Configuration and attach -/

/-- C11: `stack_walker_init` with a configuration `c` installs `c` with `max_depth`
replaced by `min(c.max_depth, 512)`, which is at most `MAX_STACK_DEPTH`, and marks
the walker initialised; with NULL it installs `{FramePointer, 512, true, false}`;
and a second call with the same argument leaves the globals of the first. -/
theorem stack_walker_init_installs (c : StackWalkerConfig)
    (config : Option StackWalkerConfig) (g : Globals) :
    (stack_walker_init (some c) g).g_config =
      { strategy := c.strategy, max_depth := min c.max_depth 512
        capture_timestamps := c.capture_timestamps
        validate_addresses := c.validate_addresses } ∧
    (stack_walker_init (some c) g).g_config.max_depth ≤ MAX_STACK_DEPTH ∧
    (stack_walker_init (some c) g).g_initialized = true ∧
    (stack_walker_init none g).g_config =
      { strategy := StackWalkStrategy.STACK_WALK_FRAME_POINTER, max_depth := 512
        capture_timestamps := true, validate_addresses := false } ∧
    (stack_walker_init none g).g_initialized = true ∧
    stack_walker_init config (stack_walker_init config g) = stack_walker_init config g := by
  refine ⟨?_, ?_, rfl, ?_, rfl, ?_⟩
  · unfold stack_walker_init MAX_STACK_DEPTH
    simp only []
    split_ifs with h
    · simp only [StackWalkerConfig.mk.injEq, true_and, and_true]; omega
    · cases c; simp only [StackWalkerConfig.mk.injEq, true_and, and_true]
      simp only [] at h; omega
  · unfold stack_walker_init MAX_STACK_DEPTH
    simp only []
    split_ifs with h
    · exact le_refl _
    · simp only [] at h; omega
  · simp [stack_walker_init, MAX_STACK_DEPTH]
  · rfl

/-- The configuration `stack_walker_init` installs from a given one: the same
fields with `max_depth` capped at 512. -/
theorem init_config_of_some (c : StackWalkerConfig) (g : Globals) :
    (stack_walker_init (some c) g).g_config =
      { strategy := c.strategy, max_depth := min c.max_depth 512
        capture_timestamps := c.capture_timestamps
        validate_addresses := c.validate_addresses } := by
  unfold stack_walker_init MAX_STACK_DEPTH
  simp only []
  split_ifs with h
  · simp only [StackWalkerConfig.mk.injEq, true_and, and_true]; omega
  · cases c; simp only [StackWalkerConfig.mk.injEq, true_and, and_true]
    simp only [] at h; omega

/-- The walker configuration `profiler_attach` derives from a profiler
configuration and hands to `stack_walker_init`, as installed. -/
theorem attach_installs_of_malloc {σ : Type} (K : Kernel σ) (pid : Int)
    (config : Option ProfilerConfig) (p : Process σ)
    (hm : (K.malloc p.world.kstate).1 = true) :
    (profiler_attach K pid config p).2.globals =
      stack_walker_init (some
        { strategy := (config.getD profiler_default_config).stack_strategy
          max_depth := (config.getD profiler_default_config).max_stack_depth
          capture_timestamps := true
          validate_addresses := false }) p.globals := by
  unfold profiler_attach
  simp only [hm, Bool.true_eq_false, if_false]
  cases config <;> split_ifs <;> rfl

/-- C12 as stated fails: when the allocation of the internal data fails,
`profiler_attach` returns -1 and installs nothing: the walker globals stay as
they were (here uninitialised), not the configuration derived from `hybrid_config`. -/
theorem attach_without_memory_installs_nothing :
    (profiler_attach malloc_fail_kernel 42 (some hybrid_config) initial_process).1 = -1 ∧
    (profiler_attach malloc_fail_kernel 42 (some hybrid_config) initial_process).2.globals
      = initial_globals ∧
    (profiler_attach malloc_fail_kernel 42 (some hybrid_config)
        initial_process).2.globals.g_config ≠
      { strategy := hybrid_config.stack_strategy
        max_depth := min hybrid_config.max_stack_depth 512
        capture_timestamps := true, validate_addresses := false } := by
  simp [profiler_attach, malloc_fail_kernel, table_kernel, initial_process, initial_globals,
    hybrid_config, fresh_world]

/-- C12 amended: a `profiler_attach` call whose allocation of the internal data
succeeds installs the walker configuration `{strategy = cfg.stack_strategy,
max_depth = min(cfg.max_stack_depth, 512), capture_timestamps = true,
validate_addresses = false}`, whether or not the task handle is then opened; with
a NULL config `cfg` is `profiler_default_config()`, which is
`{10, 512, false, true, FramePointer}`. -/
theorem attach_installs_walker_config {σ : Type} (K : Kernel σ) (pid : Int)
    (cfg : ProfilerConfig) (p : Process σ) (hm : (K.malloc p.world.kstate).1 = true) :
    (profiler_attach K pid (some cfg) p).2.globals.g_config =
      { strategy := cfg.stack_strategy, max_depth := min cfg.max_stack_depth 512
        capture_timestamps := true, validate_addresses := false } ∧
    (profiler_attach K pid none p).2.globals.g_config =
      { strategy := profiler_default_config.stack_strategy
        max_depth := min profiler_default_config.max_stack_depth 512
        capture_timestamps := true, validate_addresses := false } ∧
    profiler_default_config =
      { sample_interval_ms := 10, max_stack_depth := 512, track_async := false
        track_threads := true
        stack_strategy := StackWalkStrategy.STACK_WALK_FRAME_POINTER } := by
  refine ⟨?_, ?_, rfl⟩
  · rw [attach_installs_of_malloc K pid (some cfg) p hm]
    exact init_config_of_some _ p.globals
  · rw [attach_installs_of_malloc K pid none p hm]
    exact init_config_of_some _ p.globals

/-- C12 amended at work: `hybrid_config` asks for depth 1000 and the hybrid
strategy; depth 512 and the hybrid strategy are installed. -/
theorem attach_installs_walker_config_witness :
    (chain3_kernel.malloc initial_process.world.kstate).1 = true ∧
    (profiler_attach chain3_kernel 42 (some hybrid_config) initial_process).2.globals.g_config =
      { strategy := StackWalkStrategy.STACK_WALK_HYBRID, max_depth := 512
        capture_timestamps := true, validate_addresses := false } :=
  ⟨rfl, (attach_installs_walker_config chain3_kernel 42 hybrid_config initial_process rfl).1⟩

/-- C13: `profiler_attach`, once the internal data is allocated, for every pid,
config and kernel. If `task_for_pid` fails with status `kr`, it returns `kr` and
leaves the target Detached with `internal_data = NULL`, no thread list and
`thread_count = 0`, and the calls it issued are `malloc`, `task_for_pid pid` and
`free`, in this order: the internal data is released, nothing stays allocated.
If it succeeds, it returns 0 and leaves the target Attached with the task handle
stored, no thread list, `thread_count = 0` and all statistics zero, and the
calls it issued are `malloc` and `task_for_pid pid`: the internal data is kept. -/
theorem attach_outcomes {σ : Type} (K : Kernel σ) (pid : Int) (config : Option ProfilerConfig)
    (p : Process σ) (hm : (K.malloc p.world.kstate).1 = true) :
    ((K.task_for_pid pid (K.malloc p.world.kstate).2).1.1 ≠ KERN_SUCCESS →
      (profiler_attach K pid config p).1
        = (K.task_for_pid pid (K.malloc p.world.kstate).2).1.1 ∧
      (profiler_attach K pid config p).2.target =
        { pid := pid, task := 0, threads := none, thread_count := 0
          state := ProfilerState.PROFILER_STATE_DETACHED, internal_data := none } ∧
      (profiler_attach K pid config p).2.world.calls =
        p.world.calls ++ [Event.malloc, Event.task_for_pid pid, Event.free] ∧
      (profiler_attach K pid config p).2.world.kstate =
        (K.task_for_pid pid (K.malloc p.world.kstate).2).2) ∧
    ((K.task_for_pid pid (K.malloc p.world.kstate).2).1.1 = KERN_SUCCESS →
      (profiler_attach K pid config p).1 = 0 ∧
      (profiler_attach K pid config p).2.target =
        { pid := pid, task := (K.task_for_pid pid (K.malloc p.world.kstate).2).1.2
          threads := none, thread_count := 0
          state := ProfilerState.PROFILER_STATE_ATTACHED
          internal_data := some
            { config := config.getD profiler_default_config, stats := ProfilerStats.zero } } ∧
      profiler_get_stats (profiler_attach K pid config p).2.target =
        { total_samples := 0, successful_samples := 0, failed_samples := 0
          total_frames := 0, unique_addresses := 0 } ∧
      (profiler_attach K pid config p).2.world.calls =
        p.world.calls ++ [Event.malloc, Event.task_for_pid pid] ∧
      (profiler_attach K pid config p).2.world.kstate =
        (K.task_for_pid pid (K.malloc p.world.kstate).2).2) := by
  constructor
  · intro hk
    unfold profiler_attach
    simp only [hm, Bool.true_eq_false, if_false, World.emit]
    rw [if_pos hk]
    refine ⟨rfl, rfl, ?_, rfl⟩
    simp only [List.append_assoc, List.cons_append, List.nil_append]
  · intro hk
    unfold profiler_attach
    simp only [hm, Bool.true_eq_false, if_false, World.emit]
    rw [if_neg (not_not.mpr hk)]
    refine ⟨rfl, ?_, ?_, ?_, rfl⟩
    · cases config <;> rfl
    · cases config <;> rfl
    · simp only [List.append_assoc, List.cons_append, List.nil_append]

/-- C13 at work: a failing `task_for_pid` (status 5), whose record ends in the
`free` of the internal data, and a succeeding one (task handle `42 + 0x1000`),
whose record has no `free`. -/
theorem attach_outcomes_witness :
    (profiler_attach attach_fail_kernel 42 none initial_process).1 = 5 ∧
    (profiler_attach attach_fail_kernel 42 none initial_process).2.target.state
      = ProfilerState.PROFILER_STATE_DETACHED ∧
    (profiler_attach attach_fail_kernel 42 none initial_process).2.world.calls
      = [Event.malloc, Event.task_for_pid 42, Event.free] ∧
    (profiler_attach chain3_kernel 42 none initial_process).1 = 0 ∧
    (profiler_attach chain3_kernel 42 none initial_process).2.target.state
      = ProfilerState.PROFILER_STATE_ATTACHED ∧
    (profiler_attach chain3_kernel 42 none initial_process).2.world.calls
      = [Event.malloc, Event.task_for_pid 42] :=
  have hf := (attach_outcomes attach_fail_kernel 42 none initial_process rfl).1 (by decide)
  have hs := (attach_outcomes chain3_kernel 42 none initial_process rfl).2 (by decide)
  ⟨hf.1, by rw [hf.2.1], hf.2.2.1, hs.1, by rw [hs.2.1], hs.2.2.2.1⟩

/-! ### Thread identifier and strategy -/

/-- The trace of `walk_stack_frame_pointer` keeps the thread identifier of its argument. -/
theorem walk_keeps_thread_id {σ : Type} (arch : Arch) (K : Kernel σ) (g : Globals) (task : Nat)
    (state : cpu_state_t) (trace : StackTrace) (w : World σ) :
    (walk_stack_frame_pointer arch K g task state trace w).2.1.thread_id = trace.thread_id := by
  cases hpc : is_valid_address arch (GET_PC state)
  · exact (walk_extends_of_not_pc arch K g task state trace w hpc).2.2.2.1
  · exact (walk_extends_of_pc arch K g task state trace w hpc).2.2.2.1

/-- C18: `stack_walker_get_thread_id` for every thread handle and kernel. If the
identifier query succeeds with identifier `id`, it writes `id` and returns 0; if
it fails with status `kr`, it writes the handle itself and returns `kr`. The
`thread_id` of the trace of `stack_walker_capture` is the value written by that
call, made on the world the capture starts from. -/
theorem get_thread_id_outcomes {σ : Type} (arch : Arch) (K : Kernel σ) (g : Globals)
    (task thread : Nat) (trace : StackTrace) (w : World σ) :
    ((K.thread_info thread w.kstate).1.1 = KERN_SUCCESS →
      (stack_walker_get_thread_id K thread w).1
        = (0, (K.thread_info thread w.kstate).1.2)) ∧
    ((K.thread_info thread w.kstate).1.1 ≠ KERN_SUCCESS →
      (stack_walker_get_thread_id K thread w).1
        = ((K.thread_info thread w.kstate).1.1, thread)) ∧
    (stack_walker_capture arch K g task thread trace w).2.1.thread_id
      = (stack_walker_get_thread_id K thread w).1.2 := by
  refine ⟨?_, ?_, ?_⟩
  · intro h
    simp only [stack_walker_get_thread_id, h, if_true]
  · intro h
    simp only [stack_walker_get_thread_id, h, if_false]
  · have hb : (capture_begin K g thread trace w).1.thread_id
        = (stack_walker_get_thread_id K thread w).1.2 := by
      unfold capture_begin
      simp only []
      split_ifs <;> rfl
    unfold stack_walker_capture
    simp only []
    split_ifs
    · exact hb
    · exact hb
    · split <;> rw [walk_keeps_thread_id] <;> exact hb

/-- C18 at work: the identifier query of `chain3_kernel` succeeds with
`thread + 100`. -/
theorem get_thread_id_outcomes_witness :
    (stack_walker_get_thread_id chain3_kernel 7 fresh_world).1 = (0, 107) ∧
    (stack_walker_capture Arch.x86_64 chain3_kernel initial_globals 1 7 StackTrace.zero
      fresh_world).2.1.thread_id = 107 :=
  have h := get_thread_id_outcomes Arch.x86_64 chain3_kernel initial_globals 1 7
    StackTrace.zero fresh_world
  ⟨h.1 (by decide), by rw [h.2.2, h.1 (by decide)]; rfl⟩

/-- The chain loop reads the globals only for `max_depth`. -/
theorem walk_loop_depth_only {σ : Type} (arch : Arch) (K : Kernel σ) (g1 g2 : Globals)
    (h : g1.g_config.max_depth = g2.g_config.max_depth) (task : Nat) (n : Nat) :
    ∀ (trace : StackTrace) (fp prev_fp : Nat) (w : World σ),
      g1.g_config.max_depth - trace.frame_count = n →
      walk_loop arch K g1 task trace fp prev_fp w
        = walk_loop arch K g2 task trace fp prev_fp w := by
  induction n using Nat.strong_induction_on with
  | _ n ih =>
    intro trace fp prev_fp w hn
    rw [walk_loop, walk_loop.eq_1 arch K g2 task trace fp prev_fp w, ← h]
    simp only []
    split_ifs with c1
    all_goals first
      | rfl
      | exact ih (g1.g_config.max_depth - (trace.frame_count + 1))
          (by rw [← hn]; exact Nat.sub_lt_sub_left c1 (Nat.lt_succ_self _)) _ _ _ _ rfl

/-- The walk reads the globals only for `max_depth`. -/
theorem walk_depth_only {σ : Type} (arch : Arch) (K : Kernel σ) (g1 g2 : Globals)
    (h : g1.g_config.max_depth = g2.g_config.max_depth) (task : Nat) (state : cpu_state_t)
    (trace : StackTrace) (w : World σ) :
    walk_stack_frame_pointer arch K g1 task state trace w
      = walk_stack_frame_pointer arch K g2 task state trace w := by
  unfold walk_stack_frame_pointer
  simp only [walk_loop_depth_only arch K g1 g2 h task _ _ _ _ _ rfl]

/-- An initialised walker leaves its globals alone in `capture_begin`, and the
trace and world it prepares depend on the globals only through `capture_timestamps`. -/
theorem capture_begin_congr {σ : Type} (K : Kernel σ) (g1 g2 : Globals) (thread : Nat)
    (trace : StackTrace) (w : World σ) (h1 : g1.g_initialized = true)
    (h2 : g2.g_initialized = true)
    (ht : g1.g_config.capture_timestamps = g2.g_config.capture_timestamps) :
    (capture_begin K g1 thread trace w).2.1 = g1 ∧
    (capture_begin K g2 thread trace w).2.1 = g2 ∧
    (capture_begin K g2 thread trace w).1 = (capture_begin K g1 thread trace w).1 ∧
    (capture_begin K g2 thread trace w).2.2 = (capture_begin K g1 thread trace w).2.2 := by
  unfold capture_begin
  simp only [h1, h2, Bool.true_eq_false, if_false, ← ht]
  split_ifs <;> exact ⟨rfl, rfl, rfl, rfl⟩

/-- The result code, trace and world of a capture by an initialised walker depend
on the globals only through `max_depth` and `capture_timestamps`. -/
theorem capture_congr {σ : Type} (arch : Arch) (K : Kernel σ) (g1 g2 : Globals)
    (task thread : Nat) (trace : StackTrace) (w : World σ) (h1 : g1.g_initialized = true)
    (h2 : g2.g_initialized = true)
    (hd : g1.g_config.max_depth = g2.g_config.max_depth)
    (ht : g1.g_config.capture_timestamps = g2.g_config.capture_timestamps) :
    (stack_walker_capture arch K g1 task thread trace w).1
      = (stack_walker_capture arch K g2 task thread trace w).1 ∧
    (stack_walker_capture arch K g1 task thread trace w).2.1
      = (stack_walker_capture arch K g2 task thread trace w).2.1 ∧
    (stack_walker_capture arch K g1 task thread trace w).2.2.2
      = (stack_walker_capture arch K g2 task thread trace w).2.2.2 := by
  obtain ⟨e1, e2, e3, e4⟩ := capture_begin_congr K g1 g2 thread trace w h1 h2 ht
  unfold stack_walker_capture
  simp only [e1, e2, e3, e4]
  have hw := walk_depth_only arch K g1 g2 hd task
  split_ifs
  · exact ⟨rfl, rfl, rfl⟩
  · exact ⟨rfl, rfl, rfl⟩
  · cases g1.g_config.strategy <;> cases g2.g_config.strategy <;>
      simp only [hw, and_self]

/-- C20: for every kernel, task, thread and installed configuration,
`stack_walker_capture` with strategy LibUnwind or Hybrid returns the result code,
the trace and the world it returns with strategy FramePointer (all other
configuration fields, `max_depth` included, being the same). -/
theorem capture_strategy_irrelevant {σ : Type} (arch : Arch) (K : Kernel σ)
    (config : StackWalkerConfig) (initialized : Bool) (strategy : StackWalkStrategy)
    (task thread : Nat) (trace : StackTrace) (w : World σ) :
    (stack_walker_capture arch K
        { g_config := { config with strategy := strategy }, g_initialized := initialized }
        task thread trace w).1 =
      (stack_walker_capture arch K
        { g_config := { config with strategy := StackWalkStrategy.STACK_WALK_FRAME_POINTER }
          g_initialized := initialized } task thread trace w).1 ∧
    (stack_walker_capture arch K
        { g_config := { config with strategy := strategy }, g_initialized := initialized }
        task thread trace w).2.1 =
      (stack_walker_capture arch K
        { g_config := { config with strategy := StackWalkStrategy.STACK_WALK_FRAME_POINTER }
          g_initialized := initialized } task thread trace w).2.1 ∧
    (stack_walker_capture arch K
        { g_config := { config with strategy := strategy }, g_initialized := initialized }
        task thread trace w).2.2.2 =
      (stack_walker_capture arch K
        { g_config := { config with strategy := StackWalkStrategy.STACK_WALK_FRAME_POINTER }
          g_initialized := initialized } task thread trace w).2.2.2 := by
  cases initialized
  · cases strategy <;> exact ⟨rfl, rfl, rfl⟩
  · exact capture_congr arch K _ _ task thread trace w rfl rfl rfl rfl


/-! ### Thread list refresh -/

/-- The call record after one more entry. -/
theorem World.emit_calls {σ : Type} (w : World σ) (kstate : σ) (e : Event) :
    (w.emit kstate e).calls = w.calls ++ [e] := rfl

/-- The calls of a run of `mach_port_deallocate` over the first `n` elements. -/
theorem release_loop_calls {σ : Type} (K : Kernel σ) (target : ProfilerTarget) (n : Nat)
    (w : World σ) :
    ((List.range n).foldl
      (fun (w : World σ) (i : Nat) =>
        w.emit (K.mach_port_deallocate (target.thread_at i) w.kstate).2
          (Event.mach_port_deallocate (target.thread_at i))) w).calls
      = w.calls ++ (List.range n).map
          (fun i => Event.mach_port_deallocate (target.thread_at i)) := by
  induction n with
  | zero => simp
  | succ n ih =>
    rw [List.range_succ, List.foldl_append, List.map_append]
    simp only [List.foldl_cons, List.foldl_nil, World.emit_calls, ih, List.map_cons,
      List.map_nil, List.append_assoc]

/-- Reading a list element by element gives the list. -/
theorem map_range_getD (l : List Nat) (f : Nat → Event) :
    (List.range l.length).map (fun i => f (l.getD i 0)) = l.map f := by
  apply List.ext_getElem
  · simp
  · intro i h1 h2
    simp only [List.length_map, List.length_range] at h1
    simp [List.getD_eq_getElem?_getD, List.getElem?_eq_getElem h1]

/-- The block that releases a held thread list, on a target whose `thread_count`
is the length of its list: the target ends without list, and the calls are
`release_calls` of the list it held. -/
theorem release_if_held_spec {σ : Type} (K : Kernel σ) (target : ProfilerTarget) (w : World σ)
    (hc : target.thread_count = (target.threads.getD []).length) :
    (release_if_held K target w).1 = { target with threads := none, thread_count := 0 } ∧
    (release_if_held K target w).2.calls = w.calls ++ release_calls target.threads := by
  unfold release_if_held
  cases hth : target.threads with
  | none =>
    rw [hth] at hc
    simp only [ne_eq, not_true_eq_false, if_false, release_calls, List.append_nil, and_true]
    cases target
    simp only [ProfilerTarget.mk.injEq, true_and, and_true] at hth hc ⊢
    exact ⟨hth, hc⟩
  | some held =>
    rw [hth] at hc
    simp only [Option.getD_some] at hc
    simp only [ne_eq, reduceCtorEq, not_false_eq_true, if_true, release_calls, true_and]
    unfold release_threads
    simp only [World.emit_calls, release_loop_calls, List.append_assoc]
    simp only [hth, Option.getD_some, hc, ProfilerTarget.thread_at,
      map_range_getD held Event.mach_port_deallocate]

/-- The outcome of `profiler_refresh_threads` on a target that is not Detached and
whose `thread_count` is the length of its list. The held list is released first;
then a failing enumeration gives its status, state Error and no list, and a
succeeding one gives 0, the state as it was and the enumerated list. -/
theorem refresh_threads_spec {σ : Type} (K : Kernel σ) (p : Process σ)
    (hs : p.target.state ≠ ProfilerState.PROFILER_STATE_DETACHED)
    (hc : p.target.thread_count = (p.target.threads.getD []).length) :
    (profiler_refresh_threads K p).2.world.calls
      = p.world.calls ++ release_calls p.target.threads
          ++ [Event.task_threads p.target.task] ∧
    (profiler_refresh_threads K p).2.globals = p.globals ∧
    ((K.task_threads p.target.task (release_if_held K p.target p.world).2.kstate).1.1
        ≠ KERN_SUCCESS →
      (profiler_refresh_threads K p).1
        = (K.task_threads p.target.task (release_if_held K p.target p.world).2.kstate).1.1 ∧
      (profiler_refresh_threads K p).2.target
        = { p.target with threads := none, thread_count := 0
                          state := ProfilerState.PROFILER_STATE_ERROR }) ∧
    ((K.task_threads p.target.task (release_if_held K p.target p.world).2.kstate).1.1
        = KERN_SUCCESS →
      (profiler_refresh_threads K p).1 = 0 ∧
      (profiler_refresh_threads K p).2.target
        = { p.target with
            threads := some (K.task_threads p.target.task
              (release_if_held K p.target p.world).2.kstate).1.2
            thread_count := (K.task_threads p.target.task
              (release_if_held K p.target p.world).2.kstate).1.2.length }) := by
  obtain ⟨e1, e2⟩ := release_if_held_spec K p.target p.world hc
  have hunf : profiler_refresh_threads K p =
      if (K.task_threads (release_if_held K p.target p.world).1.task
            (release_if_held K p.target p.world).2.kstate).1.1 ≠ KERN_SUCCESS then
        ((K.task_threads (release_if_held K p.target p.world).1.task
            (release_if_held K p.target p.world).2.kstate).1.1,
          { target := { (release_if_held K p.target p.world).1 with
              state := ProfilerState.PROFILER_STATE_ERROR }
            globals := p.globals
            world := (release_if_held K p.target p.world).2.emit
              (K.task_threads (release_if_held K p.target p.world).1.task
                (release_if_held K p.target p.world).2.kstate).2
              (Event.task_threads (release_if_held K p.target p.world).1.task) })
      else
        (0, { target := { (release_if_held K p.target p.world).1 with
                threads := some (K.task_threads (release_if_held K p.target p.world).1.task
                  (release_if_held K p.target p.world).2.kstate).1.2
                thread_count := (K.task_threads (release_if_held K p.target p.world).1.task
                  (release_if_held K p.target p.world).2.kstate).1.2.length }
              globals := p.globals
              world := (release_if_held K p.target p.world).2.emit
                (K.task_threads (release_if_held K p.target p.world).1.task
                  (release_if_held K p.target p.world).2.kstate).2
                (Event.task_threads (release_if_held K p.target p.world).1.task) }) := by
    unfold profiler_refresh_threads
    rw [if_neg hs]
    rfl
  have htask : (release_if_held K p.target p.world).1.task = p.target.task := by rw [e1]
  rw [hunf, htask]
  refine ⟨?_, ?_, ?_, ?_⟩
  · split_ifs <;> simp only [World.emit, e2]
  · split_ifs <;> rfl
  · intro hk
    rw [if_pos hk, e1]
    exact ⟨rfl, rfl⟩
  · intro hk
    rw [if_neg (not_not.mpr hk), e1]
    exact ⟨rfl, rfl⟩

/-- The target after attach and refresh on `first_fails_kernel`: Attached, task
handle `42 + 0x1000`, threads 7 and 8. -/
theorem attached_first_fails_target :
    (attached_process first_fails_kernel).target =
      { pid := 42, task := 4138, threads := some [7, 8], thread_count := 2
        state := ProfilerState.PROFILER_STATE_ATTACHED
        internal_data := some { config := profiler_default_config, stats := ProfilerStats.zero } } := by
  simp [attached_process, profiler_refresh_threads, profiler_attach, initial_process,
    first_fails_kernel, table_kernel, KERN_SUCCESS, World.emit, fresh_world]

/-- C14: `profiler_refresh_threads` when the enumeration fails, for every kernel.
On a Detached target it returns -1 and changes nothing. On a target in state
Attached or Sampling (whose `thread_count` is the length of its list), if
`task_threads`, called after the release of the held list, fails with status
`kr`, the call returns `kr`, the target is in state Error with no thread list
and `thread_count = 0`, and the calls made are one `mach_port_deallocate` per
handle held before the call, one `vm_deallocate` of the list buffer, then the
failed `task_threads`. -/
theorem refresh_failure_releases {σ : Type} (K : Kernel σ) (p : Process σ) :
    (p.target.state = ProfilerState.PROFILER_STATE_DETACHED →
      profiler_refresh_threads K p = (-1, p)) ∧
    (p.target.state = ProfilerState.PROFILER_STATE_ATTACHED ∨
        p.target.state = ProfilerState.PROFILER_STATE_SAMPLING →
      p.target.thread_count = (p.target.threads.getD []).length →
      (K.task_threads p.target.task (release_if_held K p.target p.world).2.kstate).1.1
        ≠ KERN_SUCCESS →
      (profiler_refresh_threads K p).1
        = (K.task_threads p.target.task (release_if_held K p.target p.world).2.kstate).1.1 ∧
      (profiler_refresh_threads K p).2.target
        = { p.target with threads := none, thread_count := 0
                          state := ProfilerState.PROFILER_STATE_ERROR } ∧
      (profiler_refresh_threads K p).2.world.calls
        = p.world.calls ++ release_calls p.target.threads
            ++ [Event.task_threads p.target.task]) := by
  constructor
  · intro hd
    unfold profiler_refresh_threads
    rw [if_pos hd]
  · intro hs hc hk
    have hnd : p.target.state ≠ ProfilerState.PROFILER_STATE_DETACHED := by
      rcases hs with h | h <;> rw [h] <;> decide
    obtain ⟨h1, _, h3, _⟩ := refresh_threads_spec K p hnd hc
    exact ⟨(h3 hk).1, (h3 hk).2, h1⟩

/-- C14 at work: the target holding threads 7 and 8 is refreshed while
`task_threads` fails with status 6. -/
theorem refresh_failure_releases_witness :
    (profiler_refresh_threads threads_fail_kernel (attached_process first_fails_kernel)).1 = 6 ∧
    (profiler_refresh_threads threads_fail_kernel
      (attached_process first_fails_kernel)).2.target.state
        = ProfilerState.PROFILER_STATE_ERROR ∧
    (profiler_refresh_threads threads_fail_kernel
      (attached_process first_fails_kernel)).2.target.threads = none ∧
    (profiler_refresh_threads threads_fail_kernel
      (attached_process first_fails_kernel)).2.world.calls
        = (attached_process first_fails_kernel).world.calls ++
          [Event.mach_port_deallocate 7, Event.mach_port_deallocate 8,
           Event.vm_deallocate [7, 8] 8, Event.task_threads 4138] :=
  have h := (refresh_failure_releases threads_fail_kernel
      (attached_process first_fails_kernel)).2
    (Or.inl (by rw [attached_first_fails_target]))
    (by rw [attached_first_fails_target]; rfl)
    (by simp [threads_fail_kernel, KERN_SUCCESS])
  ⟨h.1, by rw [h.2.1], by rw [h.2.1], by rw [h.2.2, attached_first_fails_target]; rfl⟩

/-- C15 as stated fails: a target in state Sampling whose enumeration succeeds is
refreshed with result 0 and stays in state Sampling; it is not put in state
Attached. -/
theorem refresh_keeps_sampling_state :
    sampling_process.target.state = ProfilerState.PROFILER_STATE_SAMPLING ∧
    (profiler_refresh_threads first_fails_kernel sampling_process).1 = 0 ∧
    (profiler_refresh_threads first_fails_kernel sampling_process).2.target.state
      = ProfilerState.PROFILER_STATE_SAMPLING ∧
    (profiler_refresh_threads first_fails_kernel sampling_process).2.target.state
      ≠ ProfilerState.PROFILER_STATE_ATTACHED := by
  have hst : sampling_process.target.state = ProfilerState.PROFILER_STATE_SAMPLING := rfl
  have hc : sampling_process.target.thread_count
      = (sampling_process.target.threads.getD []).length := by
    simp [sampling_process, attached_first_fails_target]
  obtain ⟨_, _, _, h4⟩ := refresh_threads_spec first_fails_kernel sampling_process
    (by rw [hst]; decide) hc
  have h := h4 (by simp [first_fails_kernel, table_kernel, KERN_SUCCESS])
  refine ⟨hst, h.1, ?_, ?_⟩
  · rw [h.2]; exact hst
  · rw [h.2]; exact fun e => absurd (hst.symm.trans e) (by decide)

/-- C15 amended: `profiler_refresh_threads` when the enumeration succeeds, for
every kernel and every target in state Attached or Sampling (whose
`thread_count` is the length of its list). The call returns 0 and leaves the
state as it was: Attached stays Attached, Sampling stays Sampling. The calls
made are one `mach_port_deallocate` per handle held before the call, one
`vm_deallocate` of the old list buffer, then `task_threads`; and the target's
thread list and `thread_count` are exactly the enumerated list and its length. -/
theorem refresh_success_replaces_list {σ : Type} (K : Kernel σ) (p : Process σ)
    (hs : p.target.state = ProfilerState.PROFILER_STATE_ATTACHED ∨
      p.target.state = ProfilerState.PROFILER_STATE_SAMPLING)
    (hc : p.target.thread_count = (p.target.threads.getD []).length)
    (hk : (K.task_threads p.target.task (release_if_held K p.target p.world).2.kstate).1.1
      = KERN_SUCCESS) :
    (profiler_refresh_threads K p).1 = 0 ∧
    (profiler_refresh_threads K p).2.target.state = p.target.state ∧
    (profiler_refresh_threads K p).2.target
      = { p.target with
          threads := some (K.task_threads p.target.task
            (release_if_held K p.target p.world).2.kstate).1.2
          thread_count := (K.task_threads p.target.task
            (release_if_held K p.target p.world).2.kstate).1.2.length } ∧
    (profiler_refresh_threads K p).2.world.calls
      = p.world.calls ++ release_calls p.target.threads
          ++ [Event.task_threads p.target.task] := by
  have hnd : p.target.state ≠ ProfilerState.PROFILER_STATE_DETACHED := by
    rcases hs with h | h <;> rw [h] <;> decide
  obtain ⟨h1, _, _, h4⟩ := refresh_threads_spec K p hnd hc
  exact ⟨(h4 hk).1, by rw [(h4 hk).2], (h4 hk).2, h1⟩

/-- C15 amended at work: the target holding threads 7 and 8 is refreshed by a
kernel that enumerates thread 7 alone. -/
theorem refresh_success_replaces_list_witness :
    (profiler_refresh_threads chain3_kernel (attached_process first_fails_kernel)).1 = 0 ∧
    (profiler_refresh_threads chain3_kernel
      (attached_process first_fails_kernel)).2.target.state
        = ProfilerState.PROFILER_STATE_ATTACHED ∧
    (profiler_refresh_threads chain3_kernel
      (attached_process first_fails_kernel)).2.target.threads = some [7] ∧
    (profiler_refresh_threads chain3_kernel
      (attached_process first_fails_kernel)).2.world.calls
        = (attached_process first_fails_kernel).world.calls ++
          [Event.mach_port_deallocate 7, Event.mach_port_deallocate 8,
           Event.vm_deallocate [7, 8] 8, Event.task_threads 4138] :=
  have h := refresh_success_replaces_list chain3_kernel
    (attached_process first_fails_kernel)
    (Or.inl (by rw [attached_first_fails_target]))
    (by rw [attached_first_fails_target]; rfl)
    (by simp [chain3_kernel, table_kernel, KERN_SUCCESS])
  ⟨h.1, by rw [h.2.1, attached_first_fails_target], by rw [h.2.2.1]; rfl,
   by rw [h.2.2.2, attached_first_fails_target]; rfl⟩

/-! ### Detach -/

/-- The outcome of `profiler_detach` on a target whose `thread_count` is the
length of its list and that is not Detached: a clean Detached target, and the
calls of `detach_calls`. -/
theorem detach_spec {σ : Type} (K : Kernel σ) (p : Process σ)
    (hs : p.target.state ≠ ProfilerState.PROFILER_STATE_DETACHED)
    (hc : p.target.thread_count = (p.target.threads.getD []).length) :
    (profiler_detach K p).target =
      { pid := p.target.pid, task := 0, threads := none, thread_count := 0
        state := ProfilerState.PROFILER_STATE_DETACHED, internal_data := none } ∧
    (profiler_detach K p).world.calls = p.world.calls ++ detach_calls p.target := by
  obtain ⟨e1, e2⟩ := release_if_held_spec K p.target p.world hc
  have hunf : profiler_detach K p =
      (let r1 := release_if_held K p.target p.world
       let r2 : ProfilerTarget × World σ :=
         if r1.1.task ≠ 0 then
           ({ r1.1 with task := 0 },
             r1.2.emit (K.mach_port_deallocate r1.1.task r1.2.kstate).2
               (Event.mach_port_deallocate r1.1.task))
         else r1
       let r3 : ProfilerTarget × World σ :=
         if r2.1.internal_data ≠ none then
           ({ r2.1 with internal_data := none }, r2.2.emit r2.2.kstate Event.free)
         else r2
       { target := { r3.1 with state := ProfilerState.PROFILER_STATE_DETACHED }
         globals := stack_walker_cleanup p.globals
         world := r3.2 }) := by
    unfold profiler_detach
    rw [if_neg hs]
    rfl
  rw [hunf]
  simp only [detach_calls, if_neg hs]
  have ht : (release_if_held K p.target p.world).1.task = p.target.task := by rw [e1]
  have hi : (release_if_held K p.target p.world).1.internal_data = p.target.internal_data := by
    rw [e1]
  have hp : (release_if_held K p.target p.world).1.pid = p.target.pid := by rw [e1]
  have hth : (release_if_held K p.target p.world).1.threads = none := by rw [e1]
  have hn : (release_if_held K p.target p.world).1.thread_count = 0 := by rw [e1]
  by_cases h1 : p.target.task = 0 <;> by_cases h2 : p.target.internal_data = none <;>
    simp [ht, hi, hp, hth, hn, h1, h2, World.emit_calls, e2]

/-- On a Detached target `profiler_detach` does nothing. -/
theorem detach_of_detached {σ : Type} (K : Kernel σ) (p : Process σ)
    (hs : p.target.state = ProfilerState.PROFILER_STATE_DETACHED) :
    profiler_detach K p = p := by
  unfold profiler_detach
  rw [if_pos hs]

/-- A second `profiler_detach` does nothing. -/
theorem detach_detach {σ : Type} (K : Kernel σ) (p : Process σ) :
    profiler_detach K (profiler_detach K p) = profiler_detach K p := by
  apply detach_of_detached
  by_cases hs : p.target.state = ProfilerState.PROFILER_STATE_DETACHED
  · rw [detach_of_detached K p hs]
    exact hs
  · unfold profiler_detach
    rw [if_neg hs]

/-- The target `profiler_attach` leaves is consistent, whatever its outcome. -/
theorem attach_consistent {σ : Type} (K : Kernel σ) (pid : Int)
    (config : Option ProfilerConfig) (p : Process σ) :
    TargetConsistent (profiler_attach K pid config p).2.target := by
  unfold profiler_attach
  simp only []
  split_ifs <;> simp [TargetConsistent]

/-- The operations `profiler_refresh_threads` keeps targets consistent. -/
theorem refresh_consistent {σ : Type} (K : Kernel σ) (p : Process σ)
    (h : TargetConsistent p.target) :
    TargetConsistent (profiler_refresh_threads K p).2.target := by
  by_cases hs : p.target.state = ProfilerState.PROFILER_STATE_DETACHED
  · unfold profiler_refresh_threads
    rw [if_pos hs]
    exact h
  · obtain ⟨_, _, h3, h4⟩ := refresh_threads_spec K p hs h.1
    have hi := h.2.2 hs
    by_cases hk : (K.task_threads p.target.task
        (release_if_held K p.target p.world).2.kstate).1.1 = KERN_SUCCESS
    · rw [(h4 hk).2]
      exact ⟨rfl, fun e => absurd e hs, fun _ => hi⟩
    · rw [(h3 hk).2]
      exact ⟨rfl, fun e => absurd (show ProfilerState.PROFILER_STATE_ERROR
        = ProfilerState.PROFILER_STATE_DETACHED from e) (by decide), fun _ => hi⟩

/-- Replacing the statistics keeps a target consistent. -/
theorem map_internal_consistent (t : ProfilerTarget)
    (f : ProfilerInternalData → ProfilerInternalData) (h : TargetConsistent t) :
    TargetConsistent { t with internal_data := t.internal_data.map f } := by
  obtain ⟨h1, h2, h3⟩ := h
  refine ⟨h1, fun e => ?_, fun e => ?_⟩
  · obtain ⟨a, b, c⟩ := h2 e
    exact ⟨a, b, by simp only [c, Option.map_none']⟩
  · have := h3 e
    cases hd : t.internal_data with
    | none => exact absurd hd this
    | some d => simp

/-- The operation `profiler_capture_thread_stack` keeps targets consistent. -/
theorem capture_thread_consistent {σ : Type} (arch : Arch) (K : Kernel σ) (thread_index : Nat)
    (trace : StackTrace) (p : Process σ) (h : TargetConsistent p.target) :
    TargetConsistent (profiler_capture_thread_stack arch K thread_index trace p).2.2.target := by
  unfold profiler_capture_thread_stack
  split_ifs
  · exact h
  · exact h
  · exact map_internal_consistent _ _ h

/-- The operation `profiler_capture_all_stacks` keeps targets consistent. -/
theorem capture_all_consistent {σ : Type} (arch : Arch) (K : Kernel σ)
    (traces : Nat → StackTrace) (trace_count : Nat) (p : Process σ)
    (h : TargetConsistent p.target) :
    TargetConsistent (profiler_capture_all_stacks arch K traces trace_count p).2.2.2.target := by
  unfold profiler_capture_all_stacks
  split_ifs
  · exact h
  · exact map_internal_consistent _ _ h

/-- The operation `profiler_detach` keeps targets consistent. -/
theorem detach_consistent {σ : Type} (K : Kernel σ) (p : Process σ)
    (h : TargetConsistent p.target) : TargetConsistent (profiler_detach K p).target := by
  by_cases hs : p.target.state = ProfilerState.PROFILER_STATE_DETACHED
  · unfold profiler_detach
    rw [if_pos hs]
    exact h
  · rw [(detach_spec K p hs h.1).1]
    exact ⟨rfl, fun _ => ⟨rfl, rfl, rfl⟩, fun e => absurd rfl e⟩

/-- Every program state reachable from `profiler_attach` has a consistent target. -/
theorem reachable_consistent {σ : Type} (arch : Arch) (K : Kernel σ) (p : Process σ)
    (h : Reachable arch K p) : TargetConsistent p.target := by
  induction h with
  | attach pid config p0 => exact attach_consistent K pid config p0
  | refresh p _ ih => exact refresh_consistent K p ih
  | capture_thread thread_index trace p _ ih =>
    exact capture_thread_consistent arch K thread_index trace p ih
  | capture_all traces trace_count p _ ih =>
    exact capture_all_consistent arch K traces trace_count p ih
  | detach p _ ih => exact detach_consistent K p ih

/-- C16: `profiler_detach` on every program state reachable from `profiler_attach`
(Attached, Error, or Detached after a failed attach or an earlier detach), for
every kernel. The target ends Detached with `threads = NULL`, `thread_count = 0`,
task handle 0 and `internal_data = NULL`. The calls made are those of
`detach_calls`: none on a Detached target; otherwise one `mach_port_deallocate`
per held thread handle, one `vm_deallocate` of the list buffer, one
`mach_port_deallocate` of the task handle and one `free`. A second
`profiler_detach` leaves the whole program state, call record included, as the
first left it. -/
theorem detach_releases_once {σ : Type} (arch : Arch) (K : Kernel σ) (p : Process σ)
    (h : Reachable arch K p) :
    (profiler_detach K p).target =
      { pid := p.target.pid, task := 0, threads := none, thread_count := 0
        state := ProfilerState.PROFILER_STATE_DETACHED, internal_data := none } ∧
    (profiler_detach K p).world.calls = p.world.calls ++ detach_calls p.target ∧
    (p.target.state ≠ ProfilerState.PROFILER_STATE_DETACHED →
      detach_calls p.target =
        release_calls p.target.threads
          ++ (if p.target.task ≠ 0 then [Event.mach_port_deallocate p.target.task] else [])
          ++ [Event.free]) ∧
    profiler_detach K (profiler_detach K p) = profiler_detach K p := by
  have hcons := reachable_consistent arch K p h
  refine ⟨?_, ?_, ?_, detach_detach K p⟩
  · by_cases hs : p.target.state = ProfilerState.PROFILER_STATE_DETACHED
    · obtain ⟨h1, h2, _⟩ := hcons
      obtain ⟨a, b, c⟩ := h2 hs
      unfold profiler_detach
      rw [if_pos hs]
      rw [b] at h1
      cases hp : p.target
      rw [hp] at hs a b c h1
      simp only [ProfilerTarget.mk.injEq, true_and]
      exact ⟨a, b, h1, hs, c⟩
    · exact (detach_spec K p hs hcons.1).1
  · by_cases hs : p.target.state = ProfilerState.PROFILER_STATE_DETACHED
    · unfold profiler_detach detach_calls
      rw [if_pos hs, if_pos hs, List.append_nil]
    · exact (detach_spec K p hs hcons.1).2
  · intro hs
    unfold detach_calls
    rw [if_neg hs, if_pos (hcons.2.2 hs)]

/-- The state after attach and refresh on `first_fails_kernel` is reachable. -/
theorem attached_first_fails_reachable :
    Reachable Arch.x86_64 first_fails_kernel (attached_process first_fails_kernel) :=
  Reachable.refresh _ (Reachable.attach 42 none initial_process)

/-- C16 at work: detaching the target that holds task 4138 and threads 7 and 8. -/
theorem detach_releases_once_witness :
    (profiler_detach first_fails_kernel (attached_process first_fails_kernel)).target.state
      = ProfilerState.PROFILER_STATE_DETACHED ∧
    (profiler_detach first_fails_kernel (attached_process first_fails_kernel)).world.calls
      = (attached_process first_fails_kernel).world.calls ++
        [Event.mach_port_deallocate 7, Event.mach_port_deallocate 8,
         Event.vm_deallocate [7, 8] 8, Event.mach_port_deallocate 4138, Event.free] :=
  have h := detach_releases_once Arch.x86_64 first_fails_kernel
    (attached_process first_fails_kernel) attached_first_fails_reachable
  ⟨by rw [h.1], by rw [h.2.1, attached_first_fails_target]; rfl⟩


/-! ### Single-thread sampling -/

/-- C17: `profiler_capture_thread_stack` for every kernel, target and index. If
the target is Detached or `thread_index >= thread_count`, the call returns -1 and
leaves the trace and the whole program state as they were: no kernel call is
made (no thread is suspended) and no counter changes. Otherwise (the target
having its internal data `d`) it returns the result and the trace of
`stack_walker_capture` on `threads[thread_index]`, adds 1 to `total_samples`, and
on result 0 adds 1 to `successful_samples` and the trace's `frame_count` to
`total_frames`, else adds 1 to `failed_samples`; additions are on `uint64_t`. -/
theorem capture_thread_stack_outcomes {σ : Type} (arch : Arch) (K : Kernel σ)
    (thread_index : Nat) (trace : StackTrace) (p : Process σ) :
    (p.target.state = ProfilerState.PROFILER_STATE_DETACHED ∨
        thread_index ≥ p.target.thread_count →
      profiler_capture_thread_stack arch K thread_index trace p = (-1, trace, p)) ∧
    (p.target.state ≠ ProfilerState.PROFILER_STATE_DETACHED →
      thread_index < p.target.thread_count →
      ∀ d, p.target.internal_data = some d →
        (profiler_capture_thread_stack arch K thread_index trace p).1
          = (stack_walker_capture arch K p.globals p.target.task
              (p.target.thread_at thread_index) trace p.world).1 ∧
        (profiler_capture_thread_stack arch K thread_index trace p).2.1
          = (stack_walker_capture arch K p.globals p.target.task
              (p.target.thread_at thread_index) trace p.world).2.1 ∧
        (profiler_get_stats
            (profiler_capture_thread_stack arch K thread_index trace p).2.2.target).total_samples
          = (d.stats.total_samples + 1) % 2 ^ 64 ∧
        ((stack_walker_capture arch K p.globals p.target.task
              (p.target.thread_at thread_index) trace p.world).1 = 0 →
          profiler_get_stats
              (profiler_capture_thread_stack arch K thread_index trace p).2.2.target
            = { total_samples := (d.stats.total_samples + 1) % 2 ^ 64
                successful_samples := (d.stats.successful_samples + 1) % 2 ^ 64
                failed_samples := d.stats.failed_samples
                total_frames :=
                  (d.stats.total_frames +
                    (stack_walker_capture arch K p.globals p.target.task
                      (p.target.thread_at thread_index) trace p.world).2.1.frame_count)
                    % 2 ^ 64
                unique_addresses := d.stats.unique_addresses }) ∧
        ((stack_walker_capture arch K p.globals p.target.task
              (p.target.thread_at thread_index) trace p.world).1 ≠ 0 →
          profiler_get_stats
              (profiler_capture_thread_stack arch K thread_index trace p).2.2.target
            = { total_samples := (d.stats.total_samples + 1) % 2 ^ 64
                successful_samples := d.stats.successful_samples
                failed_samples := (d.stats.failed_samples + 1) % 2 ^ 64
                total_frames := d.stats.total_frames
                unique_addresses := d.stats.unique_addresses })) := by
  constructor
  · intro h
    unfold profiler_capture_thread_stack
    rcases h with h | h
    · rw [if_pos h]
    · split_ifs <;> rfl
  · intro hs hi d hd
    have hnot : ¬ thread_index ≥ p.target.thread_count := by omega
    unfold profiler_capture_thread_stack
    rw [if_neg hs, if_neg hnot]
    simp only [hd, Option.map_some', profiler_get_stats, update_stats_single, true_and]
    refine ⟨?_, ?_, ?_⟩
    · split_ifs <;> rfl
    · intro h0
      rw [if_pos h0]
    · intro h0
      rw [if_neg h0]

/-- C17 at work on the target with threads 7 and 8: index 2 is rejected; index 1
samples thread 8 and counts one successful sample with one frame. -/
theorem capture_thread_stack_outcomes_witness :
    profiler_capture_thread_stack Arch.x86_64 first_fails_kernel 2 StackTrace.zero
        (attached_process first_fails_kernel)
      = (-1, StackTrace.zero, attached_process first_fails_kernel) ∧
    (profiler_get_stats (profiler_capture_thread_stack Arch.x86_64 first_fails_kernel 1
        StackTrace.zero (attached_process first_fails_kernel)).2.2.target).total_samples
      = (ProfilerStats.zero.total_samples + 1) % 2 ^ 64 :=
  have h := capture_thread_stack_outcomes Arch.x86_64 first_fails_kernel
  ⟨(h 2 StackTrace.zero (attached_process first_fails_kernel)).1
      (Or.inr (by rw [attached_first_fails_target])),
   ((h 1 StackTrace.zero (attached_process first_fails_kernel)).2
      (by rw [attached_first_fails_target]; decide)
      (by rw [attached_first_fails_target]; decide)
      { config := profiler_default_config, stats := ProfilerStats.zero }
      (by rw [attached_first_fails_target])).2.2.1⟩

/-! ### Backward frame pointers -/

/-- A pass that goes round again hands the loop over to the next pass. -/
theorem loop_next_walk {σ : Type} (arch : Arch) (K : Kernel σ) (g : Globals) (task : Nat)
    (s m : LoopState σ) (h : loop_next arch K g task s = some m) :
    walk_loop arch K g task s.trace s.fp s.prev_fp s.world
      = walk_loop arch K g task m.trace m.fp m.prev_fp m.world := by
  unfold loop_next at h
  simp only [] at h
  split_ifs at h with hc
  obtain ⟨hr, hk, hv, hz⟩ := hc
  simp only [loop_reads, Bool.and_eq_true, decide_eq_true_eq] at hr
  obtain ⟨⟨⟨h1, h2⟩, h3⟩, h4⟩ := hr
  injection h with h
  subst h
  rw [walk_loop.eq_1 arch K g task s.trace s.fp s.prev_fp s.world]
  simp only [h1, if_true, h2, Bool.true_eq_false, if_false, hk, ne_eq, not_true_eq_false, hv, hz]
  rw [if_neg (by omega), if_neg (by omega)]

/-- Every pass of the loop has the result of the pass the walk entered with. -/
theorem loop_reaches_walk {σ : Type} (arch : Arch) (K : Kernel σ) (g : Globals) (task : Nat)
    (n : Nat) (s0 s : LoopState σ) (h : loop_reaches arch K g task n s0 s) :
    walk_loop arch K g task s0.trace s0.fp s0.prev_fp s0.world
      = walk_loop arch K g task s.trace s.fp s.prev_fp s.world := by
  induction n generalizing s0 with
  | zero =>
    simp only [loop_reaches] at h
    rw [h]
  | succ n ih =>
    obtain ⟨m, hm, hrest⟩ := h
    rw [loop_next_walk arch K g task s0 m hm]
    exact ih m hrest

/-- The walk is its entry into the loop followed by the loop. -/
theorem walk_of_entry {σ : Type} (arch : Arch) (K : Kernel σ) (g : Globals) (task : Nat)
    (state : cpu_state_t) (trace : StackTrace) (w : World σ) (s0 : LoopState σ)
    (h : walk_loop_entry arch state trace w = some s0) :
    walk_stack_frame_pointer arch K g task state trace w
      = (0, (walk_loop arch K g task s0.trace s0.fp s0.prev_fp s0.world).1,
          (walk_loop arch K g task s0.trace s0.fp s0.prev_fp s0.world).2) := by
  unfold walk_loop_entry at h
  unfold walk_stack_frame_pointer
  split_ifs at h with h1 h2
  · injection h with h
    subst h
    simp only [h1, if_true]
  · injection h with h
    subst h
    have h2t : is_valid_address arch (GET_FP state) = true := by simpa using h2
    have h1f : is_valid_address arch (GET_PC state) = false := by simpa using h1
    simp only [h1f, h2t, if_false, Bool.false_eq_true, Bool.true_eq_false]

/-- A pass that reads a frame whose stored next frame pointer is not above `fp`
is the last pass: the loop ends with the frame of this read appended when its
return address is plausible, and with the trace as it was otherwise. -/
theorem walk_loop_stops_at_backward {σ : Type} (arch : Arch) (K : Kernel σ) (g : Globals)
    (task : Nat) (s : LoopState σ) (hreads : loop_reads arch g s = true)
    (hok : (read_memory K task s.fp 16 s.world).1.1 = KERN_SUCCESS)
    (hback : (read_memory K task s.fp 16 s.world).1.2.1 ≤ s.fp) :
    walk_loop arch K g task s.trace s.fp s.prev_fp s.world =
      if is_valid_address arch (read_memory K task s.fp 16 s.world).1.2.2 = true then
        (s.trace.add_frame (read_memory K task s.fp 16 s.world).1.2.2 s.fp,
          (read_memory K task s.fp 16 s.world).2.emit
            (read_memory K task s.fp 16 s.world).2.kstate
            (Event.frame_store s.trace.frame_count))
      else (s.trace, (read_memory K task s.fp 16 s.world).2) := by
  simp only [loop_reads, Bool.and_eq_true, decide_eq_true_eq] at hreads
  obtain ⟨⟨⟨h1, h2⟩, h3⟩, h4⟩ := hreads
  rw [walk_loop.eq_1 arch K g task s.trace s.fp s.prev_fp s.world]
  simp only [h1, if_true, h2, Bool.true_eq_false, if_false, hok, ne_eq, not_true_eq_false]
  rw [if_neg (by omega), if_neg (by omega)]
  by_cases hv : is_valid_address arch (read_memory K task s.fp 16 s.world).1.2.2 = true
  · simp only [hv, Bool.true_eq_false, if_false, if_true]
    by_cases hz : (read_memory K task s.fp 16 s.world).1.2.1 = 0
    · rw [if_pos hz]
    · rw [if_neg hz, walk_loop.eq_1]
      split_ifs <;> rfl
  · have hv2 : is_valid_address arch (read_memory K task s.fp 16 s.world).1.2.2 = false := by
      simpa using hv
    simp only [hv2, if_true, Bool.false_eq_true, if_false]

/-- C19: for every walk and every pass of its loop (the pass starting at `s`,
`n` passes after the one the walk entered with), if the pass reads a frame at
`s.fp` whose stored `next_fp` is at most `s.fp` (a self-loop, a backward pointer,
a cycle or 0), then nothing is appended after this pass and the walk returns 0.
When the read return address is plausible the returned trace is the trace of
this pass with `{return_addr, s.fp}` appended as its last frame; when it is not,
the returned trace is the trace of this pass. No call follows the read, except
the store of that frame. -/
theorem walk_stops_at_backward_frame {σ : Type} (arch : Arch) (K : Kernel σ) (g : Globals)
    (task : Nat) (state : cpu_state_t) (trace : StackTrace) (w : World σ)
    (s0 s : LoopState σ) (n : Nat)
    (hentry : walk_loop_entry arch state trace w = some s0)
    (hreach : loop_reaches arch K g task n s0 s)
    (hreads : loop_reads arch g s = true)
    (hok : (read_memory K task s.fp 16 s.world).1.1 = KERN_SUCCESS)
    (hback : (read_memory K task s.fp 16 s.world).1.2.1 ≤ s.fp) :
    (walk_stack_frame_pointer arch K g task state trace w).1 = 0 ∧
    (is_valid_address arch (read_memory K task s.fp 16 s.world).1.2.2 = true →
      (walk_stack_frame_pointer arch K g task state trace w).2.1
        = s.trace.add_frame (read_memory K task s.fp 16 s.world).1.2.2 s.fp ∧
      (walk_stack_frame_pointer arch K g task state trace w).2.1.frame_count
        = s.trace.frame_count + 1 ∧
      (walk_stack_frame_pointer arch K g task state trace w).2.1.frames s.trace.frame_count
        = { address := (read_memory K task s.fp 16 s.world).1.2.2, frame_pointer := s.fp } ∧
      (walk_stack_frame_pointer arch K g task state trace w).2.2.calls
        = s.world.calls ++ [Event.vm_read_overwrite task s.fp 16,
            Event.frame_store s.trace.frame_count]) ∧
    (is_valid_address arch (read_memory K task s.fp 16 s.world).1.2.2 = false →
      (walk_stack_frame_pointer arch K g task state trace w).2.1 = s.trace ∧
      (walk_stack_frame_pointer arch K g task state trace w).2.2.calls
        = s.world.calls ++ [Event.vm_read_overwrite task s.fp 16]) := by
  rw [walk_of_entry arch K g task state trace w s0 hentry,
    loop_reaches_walk arch K g task n s0 s hreach,
    walk_loop_stops_at_backward arch K g task s hreads hok hback]
  refine ⟨rfl, ?_, ?_⟩
  · intro hv
    rw [if_pos hv]
    refine ⟨rfl, rfl, ?_, ?_⟩
    · simp only [StackTrace.add_frame, Function.update_same]
    · simp only [World.emit_calls, read_memory, List.append_assoc, List.singleton_append]
  · intro hv
    rw [if_neg (by rw [hv]; decide)]
    exact ⟨rfl, by simp only [World.emit_calls, read_memory]⟩

/-- C19 at work: in the walk over `low_chain_mem` the second pass reads, at
`0x100100`, a frame whose stored next frame pointer is 0; the walk ends with
three frames, the last one `{0x100004400, 0x100100}`. -/
theorem walk_stops_at_backward_frame_witness :
    (walk_stack_frame_pointer Arch.x86_64 low_chain_kernel
      (stack_walker_init none initial_globals) 1 low_chain_state StackTrace.zero
      fresh_world).2.1.frame_count = low_chain_second.trace.frame_count + 1 ∧
    (walk_stack_frame_pointer Arch.x86_64 low_chain_kernel
      (stack_walker_init none initial_globals) 1 low_chain_state StackTrace.zero
      fresh_world).2.1.frames low_chain_second.trace.frame_count
        = { address := (read_memory low_chain_kernel 1 low_chain_second.fp 16
              low_chain_second.world).1.2.2
            frame_pointer := low_chain_second.fp } :=
  have h := (walk_stops_at_backward_frame Arch.x86_64 low_chain_kernel
    (stack_walker_init none initial_globals) 1 low_chain_state StackTrace.zero fresh_world
    low_chain_entry low_chain_second 1
    (by simp [walk_loop_entry, low_chain_entry, low_chain_state, is_valid_address, GET_PC,
          GET_FP])
    ⟨low_chain_second,
      by simp [loop_next, loop_reads, low_chain_entry, low_chain_second, read_memory,
          low_chain_kernel, table_kernel, low_chain_mem, is_valid_address, KERN_SUCCESS,
          stack_walker_init, initial_globals, MAX_STACK_DEPTH, StackTrace.add_frame,
          StackTrace.zero, World.emit, fresh_world],
      rfl⟩
    (by simp [loop_reads, low_chain_entry, low_chain_second, is_valid_address,
          stack_walker_init, initial_globals, MAX_STACK_DEPTH, StackTrace.add_frame,
          StackTrace.zero])
    (by simp [read_memory, low_chain_second, low_chain_kernel, table_kernel, low_chain_mem,
          KERN_SUCCESS])
    (by simp [read_memory, low_chain_second, low_chain_kernel, table_kernel,
          low_chain_mem])).2.1
    (by simp [read_memory, low_chain_second, low_chain_kernel, table_kernel, low_chain_mem,
          is_valid_address])
  ⟨h.2.1, h.2.2.1⟩


/-! ### The first pass of the loop -/

/-- A plausible address is at least `0x100000`. -/
theorem valid_address_ge (arch : Arch) (a : Nat) (h : is_valid_address arch a = true) :
    0x100000 ≤ a := by
  unfold is_valid_address at h
  split_ifs at h
  omega

/-- Entered with `prev_fp = 0` and a frame pointer other than `0x100000`, the
chain loop stops in its first pass, before the memory read. -/
theorem walk_loop_first_pass_stops {σ : Type} (arch : Arch) (K : Kernel σ) (g : Globals)
    (task : Nat) (trace : StackTrace) (fp : Nat) (w : World σ) (hfp : fp ≠ 0x100000) :
    walk_loop arch K g task trace fp 0 w = (trace, w) := by
  rw [walk_loop.eq_1]
  split_ifs with c1 c2 c3 c4
  · rfl
  · rfl
  · rfl
  · have hv : is_valid_address arch fp = true := by simpa using c2
    have := valid_address_ge arch fp hv
    omega
  · rfl

/-- C21: for every register state whose frame pointer is not `0x100000`, every
kernel, target memory and `max_depth`, `walk_stack_frame_pointer` returns 0,
issues no memory read (the kernel state is untouched and the only entry it adds
to the call record is the store of frame 0), and returns `frame_count = 1` with
`frames[0] = {pc, fp}` when `pc` is plausible, `frame_count = 0` otherwise. -/
theorem walk_stops_unless_fp_is_base {σ : Type} (arch : Arch) (K : Kernel σ) (g : Globals)
    (task : Nat) (state : cpu_state_t) (trace : StackTrace) (w : World σ)
    (hfp : GET_FP state ≠ 0x100000) :
    (walk_stack_frame_pointer arch K g task state trace w).1 = 0 ∧
    (walk_stack_frame_pointer arch K g task state trace w).2.2.kstate = w.kstate ∧
    (is_valid_address arch (GET_PC state) = true →
      (walk_stack_frame_pointer arch K g task state trace w).2.2.calls
        = w.calls ++ [Event.frame_store 0] ∧
      (walk_stack_frame_pointer arch K g task state trace w).2.1.frame_count = 1 ∧
      (walk_stack_frame_pointer arch K g task state trace w).2.1.frames 0
        = { address := GET_PC state, frame_pointer := GET_FP state }) ∧
    (is_valid_address arch (GET_PC state) = false →
      (walk_stack_frame_pointer arch K g task state trace w).2.2.calls = w.calls ∧
      (walk_stack_frame_pointer arch K g task state trace w).2.1.frame_count = 0) := by
  unfold walk_stack_frame_pointer
  simp only [walk_loop_first_pass_stops arch K g task _ _ _ hfp]
  by_cases hpc : is_valid_address arch (GET_PC state) = true
  · rw [if_pos hpc]
    refine ⟨rfl, rfl, fun _ => ⟨rfl, rfl, ?_⟩, fun h => absurd (hpc.symm.trans h) (by decide)⟩
    simp only [StackTrace.add_frame, Function.update_same]
  · rw [if_neg hpc]
    refine ⟨?_, ?_, fun h => absurd h hpc, fun _ => ?_⟩
    · split_ifs <;> rfl
    · split_ifs <;> rfl
    · split_ifs <;> exact ⟨rfl, rfl⟩

/-- C21 at work: the registers of end-to-end scenario 1 (`fp = 0x7ff000001000`)
give one frame and no read. -/
theorem walk_stops_unless_fp_is_base_witness :
    GET_FP chain3_state ≠ 0x100000 ∧
    (walk_stack_frame_pointer Arch.x86_64 chain3_kernel
      (stack_walker_init none initial_globals) 1 chain3_state StackTrace.zero
      fresh_world).2.1.frame_count = 1 ∧
    (walk_stack_frame_pointer Arch.x86_64 chain3_kernel
      (stack_walker_init none initial_globals) 1 chain3_state StackTrace.zero
      fresh_world).2.2.calls = fresh_world.calls ++ [Event.frame_store 0] :=
  have hfp : GET_FP chain3_state ≠ 0x100000 := by decide
  have h := (walk_stops_unless_fp_is_base Arch.x86_64 chain3_kernel
    (stack_walker_init none initial_globals) 1 chain3_state StackTrace.zero fresh_world
    hfp).2.2.1 (by simp [is_valid_address, GET_PC, chain3_state])
  ⟨hfp, h.2.1, h.1⟩

/-! ### Frames appended by the loop -/

/-- C23: in every trace returned by `walk_stack_frame_pointer`, every frame
appended by the chain loop (index at least 1 when `pc` is plausible, any index
otherwise) has a plausible `frame_pointer`, and for two consecutive such frames
`frames[i].frame_pointer < frames[i+1].frame_pointer <= frames[i].frame_pointer
+ 0x100000`. -/
theorem walk_chain_frames_bounded {σ : Type} (arch : Arch) (K : Kernel σ) (g : Globals)
    (task : Nat) (state : cpu_state_t) (trace : StackTrace) (w : World σ) (i : Nat)
    (hlo : (if is_valid_address arch (GET_PC state) = true then 1 else 0) ≤ i)
    (hi : i < (walk_stack_frame_pointer arch K g task state trace w).2.1.frame_count) :
    is_valid_address arch
        ((walk_stack_frame_pointer arch K g task state trace w).2.1.frames i).frame_pointer
      = true ∧
    (i + 1 < (walk_stack_frame_pointer arch K g task state trace w).2.1.frame_count →
      ((walk_stack_frame_pointer arch K g task state trace w).2.1.frames i).frame_pointer
        < ((walk_stack_frame_pointer arch K g task state trace w).2.1.frames
            (i + 1)).frame_pointer ∧
      ((walk_stack_frame_pointer arch K g task state trace w).2.1.frames
            (i + 1)).frame_pointer
        ≤ ((walk_stack_frame_pointer arch K g task state trace w).2.1.frames i).frame_pointer
            + 0x100000) := by
  cases hpc : is_valid_address arch (GET_PC state)
  · obtain ⟨_, _, _, _, _, _, h7, _, h9⟩ :=
      walk_extends_of_not_pc arch K g task state trace w hpc
    exact ⟨(h7 i (Nat.zero_le _) hi).2, fun h => h9 i (Nat.zero_le _) h⟩
  · obtain ⟨_, _, _, _, _, _, h7, _, h9⟩ :=
      walk_extends_of_pc arch K g task state trace w hpc
    simp only [StackTrace.add_frame] at h7 h9
    rw [hpc] at hlo
    simp only [if_true] at hlo
    exact ⟨(h7 i hlo hi).2, fun h => h9 i hlo h⟩

/-- C23 at work: frames 1 and 2 of the trace walked over `low_chain_mem`. -/
theorem walk_chain_frames_bounded_witness :
    is_valid_address Arch.x86_64
      ((walk_stack_frame_pointer Arch.x86_64 low_chain_kernel
        (stack_walker_init none initial_globals) 1 low_chain_state StackTrace.zero
        fresh_world).2.1.frames 1).frame_pointer = true ∧
    ((walk_stack_frame_pointer Arch.x86_64 low_chain_kernel
        (stack_walker_init none initial_globals) 1 low_chain_state StackTrace.zero
        fresh_world).2.1.frames 1).frame_pointer
      < ((walk_stack_frame_pointer Arch.x86_64 low_chain_kernel
        (stack_walker_init none initial_globals) 1 low_chain_state StackTrace.zero
        fresh_world).2.1.frames (1 + 1)).frame_pointer :=
  have h := walk_chain_frames_bounded Arch.x86_64 low_chain_kernel
    (stack_walker_init none initial_globals) 1 low_chain_state StackTrace.zero fresh_world 1
    (by simp [is_valid_address, GET_PC, low_chain_state])
    (by rw [low_chain_walk.1]; decide)
  ⟨h.1, (h.2 (by rw [low_chain_walk.1]; decide)).1⟩


/-! ### Resource bounds of the walk -/

/-- The chain loop issues at most `max_depth - frame_count` memory reads. -/
theorem walk_loop_reads {σ : Type} (arch : Arch) (K : Kernel σ) (g : Globals) (task : Nat)
    (trace : StackTrace) (fp prev_fp : Nat) (w : World σ) :
    ∃ l, (walk_loop arch K g task trace fp prev_fp w).2.calls = w.calls ++ l ∧
      l.countP Event.is_memory_read ≤ g.g_config.max_depth - trace.frame_count := by
  induction trace, fp, prev_fp, w using walk_loop.induct arch K g task with
  | case1 trace fp prev_fp w h1 h2 =>
    rw [walk_loop]; simp only [h1, h2, if_true]; exact ⟨[], by simp, by simp⟩
  | case2 trace fp prev_fp w h1 h2 h3 =>
    rw [walk_loop]; simp only [h1, h2, h3, if_true, if_false]; exact ⟨[], by simp, by simp⟩
  | case3 trace fp prev_fp w h1 h2 h3 h4 =>
    rw [walk_loop]; simp only [h1, h2, h3, h4, if_true, if_false]
    exact ⟨[], by simp, by simp⟩
  | case4 trace fp prev_fp w h1 h2 h3 h4 r h5 =>
    rw [walk_loop]; simp only [h1, h2, h3, h4, if_true, if_false]
    rw [if_pos h5]; simp only [Bool.true_eq_false, if_false]
    refine ⟨[Event.vm_read_overwrite task fp 16], rfl, ?_⟩
    simp only [List.countP_cons, List.countP_nil, Event.is_memory_read, if_true]
    omega
  | case5 trace fp prev_fp w h1 h2 h3 h4 r h5 ra h6 =>
    rw [walk_loop]; simp only [h1, h2, h3, h4, if_true, if_false]
    rw [if_neg h5, if_pos h6]; simp only [Bool.true_eq_false, if_false]
    refine ⟨[Event.vm_read_overwrite task fp 16], rfl, ?_⟩
    simp only [List.countP_cons, List.countP_nil, Event.is_memory_read, if_true]
    omega
  | case6 trace fp prev_fp w h1 h2 h3 h4 r h5 nf ra h6 h7 =>
    rw [walk_loop]; simp only [h1, h2, h3, h4, if_true, if_false]
    rw [if_neg h5, if_neg h6, if_pos h7]; simp only [Bool.true_eq_false, if_false]
    refine ⟨[Event.vm_read_overwrite task fp 16, Event.frame_store trace.frame_count], ?_, ?_⟩
    · simp [World.emit, read_memory]
    · simp only [List.countP_cons, List.countP_nil, Event.is_memory_read, if_true,
        Bool.false_eq_true, if_false]
      omega
  | case7 trace fp prev_fp w h1 h2 h3 h4 r h5 nf ra h6 w1 trace1 h7 ih =>
    rw [walk_loop]; simp only [h1, h2, h3, h4, if_true, if_false]
    rw [if_neg h5, if_neg h6, if_neg h7]; simp only [Bool.true_eq_false, if_false]
    obtain ⟨l, hl, hcount⟩ := ih
    refine ⟨[Event.vm_read_overwrite task fp 16, Event.frame_store trace.frame_count] ++ l,
      ?_, ?_⟩
    · rw [hl]; simp [w1, r, World.emit, read_memory]
    · have hfc : trace1.frame_count = trace.frame_count + 1 := rfl
      rw [hfc] at hcount
      rw [List.countP_append]
      simp only [List.countP_cons, List.countP_nil, Event.is_memory_read, if_true,
        Bool.false_eq_true, if_false]
      omega
  | case8 trace fp prev_fp w h1 =>
    rw [walk_loop]; simp only [h1, if_false]; exact ⟨[], by simp, by simp⟩

/-- A pass that goes round again was within the depth limit and appended one frame. -/
theorem loop_next_count {σ : Type} (arch : Arch) (K : Kernel σ) (g : Globals) (task : Nat)
    (s m : LoopState σ) (h : loop_next arch K g task s = some m) :
    s.trace.frame_count < g.g_config.max_depth ∧
    m.trace.frame_count = s.trace.frame_count + 1 := by
  unfold loop_next at h
  simp only [] at h
  split_ifs at h with hc
  obtain ⟨hr, _, _, _⟩ := hc
  simp only [loop_reads, Bool.and_eq_true, decide_eq_true_eq] at hr
  injection h with h
  subst h
  exact ⟨hr.1.1.1, rfl⟩

/-- After `n` passes the trace has `n` more frames. -/
theorem loop_reaches_count {σ : Type} (arch : Arch) (K : Kernel σ) (g : Globals) (task : Nat)
    (n : Nat) (s0 s : LoopState σ) (h : loop_reaches arch K g task n s0 s) :
    s.trace.frame_count = s0.trace.frame_count + n := by
  induction n generalizing s0 with
  | zero =>
    simp only [loop_reaches] at h
    rw [h]; rfl
  | succ n ih =>
    obtain ⟨m, hm, hrest⟩ := h
    rw [ih m hrest, (loop_next_count arch K g task s0 m hm).2]
    omega

/-- From any pass, the loop ends after at most `max_depth - frame_count` further
passes. -/
theorem loop_ends {σ : Type} (arch : Arch) (K : Kernel σ) (g : Globals) (task : Nat)
    (k : Nat) :
    ∀ s0 : LoopState σ, g.g_config.max_depth - s0.trace.frame_count = k →
      ∃ n s, n ≤ k ∧ loop_reaches arch K g task n s0 s ∧
        loop_next arch K g task s = none := by
  induction k using Nat.strong_induction_on with
  | _ k ih =>
    intro s0 hk
    cases hn : loop_next arch K g task s0 with
    | none => exact ⟨0, s0, Nat.zero_le _, rfl, hn⟩
    | some m =>
      obtain ⟨h1, h2⟩ := loop_next_count arch K g task s0 m hn
      obtain ⟨n, s, hle, hreach, hend⟩ :=
        ih (g.g_config.max_depth - m.trace.frame_count) (by omega) m rfl
      exact ⟨n + 1, s, by omega, ⟨m, hn, hreach⟩, hend⟩

/-- The walk over `endless_mem` with `max_depth = 3`: three frames, two reads. -/
theorem endless_walk :
    (walk_stack_frame_pointer Arch.x86_64 endless_kernel
      (stack_walker_init (some (depth_config 3)) initial_globals) 1 low_chain_state
      StackTrace.zero fresh_world).2.1.frame_count = 3 ∧
    (walk_stack_frame_pointer Arch.x86_64 endless_kernel
      (stack_walker_init (some (depth_config 3)) initial_globals) 1 low_chain_state
      StackTrace.zero fresh_world).2.2.calls =
      [Event.frame_store 0, Event.vm_read_overwrite 1 0x100000 16, Event.frame_store 1,
       Event.vm_read_overwrite 1 0x100100 16, Event.frame_store 2] := by
  simp [walk_stack_frame_pointer, walk_loop, stack_walker_init, initial_globals, depth_config,
    is_valid_address, GET_PC, GET_FP, StackTrace.add_frame, StackTrace.zero,
    MAX_STACK_DEPTH, endless_kernel, table_kernel, endless_mem, low_chain_state,
    read_memory, World.emit, fresh_world, KERN_SUCCESS]

/-- C22: for every register state, every `max_depth` and every kernel (whatever
the target memory holds, and whether or not its reads succeed),
`walk_stack_frame_pointer` is a total function whose loop is bounded by
`max_depth`. The memory reads it adds to the call record are at most
`max_depth`. From the pass it enters the loop with, the loop ends after at most
`max_depth` passes that go round again; a pass that follows `n` others and
passes the loop condition has `n + 1 <= max_depth`; and every pass that goes
round again raises `frame_count` by one. -/
theorem walk_terminates_within_depth {σ : Type} (arch : Arch) (K : Kernel σ) (g : Globals)
    (task : Nat) (state : cpu_state_t) (trace : StackTrace) (w : World σ) :
    (∃ l, (walk_stack_frame_pointer arch K g task state trace w).2.2.calls = w.calls ++ l ∧
      l.countP Event.is_memory_read ≤ g.g_config.max_depth) ∧
    (∀ s0, walk_loop_entry arch state trace w = some s0 →
      (∃ n s, n ≤ g.g_config.max_depth ∧ loop_reaches arch K g task n s0 s ∧
        loop_next arch K g task s = none) ∧
      (∀ n s, loop_reaches arch K g task n s0 s → loop_enters g s = true →
        n + 1 ≤ g.g_config.max_depth)) ∧
    (∀ s m : LoopState σ, loop_next arch K g task s = some m →
      m.trace.frame_count = s.trace.frame_count + 1) := by
  refine ⟨?_, ?_, fun s m h => (loop_next_count arch K g task s m h).2⟩
  · unfold walk_stack_frame_pointer
    by_cases hpc : is_valid_address arch (GET_PC state) = true
    · simp only [hpc, if_true]
      obtain ⟨l, hl, hcount⟩ := walk_loop_reads arch K g task
        (StackTrace.add_frame { trace with frame_count := 0 } (GET_PC state) (GET_FP state))
        (GET_FP state) 0 (w.emit w.kstate (Event.frame_store 0))
      refine ⟨Event.frame_store 0 :: l, ?_, ?_⟩
      · rw [hl]; simp [World.emit]
      · simp only [List.countP_cons, Event.is_memory_read, Bool.false_eq_true, if_false]
        omega
    · simp only [hpc, if_false]
      by_cases hfp : is_valid_address arch (GET_FP state) = false
      · simp only [hfp, if_true]
        exact ⟨[], by simp, by simp⟩
      · simp only [hfp, if_false]
        obtain ⟨l, hl, hcount⟩ := walk_loop_reads arch K g task
          { trace with frame_count := 0 } (GET_FP state) 0 w
        exact ⟨l, hl, by omega⟩
  · intro s0 _
    constructor
    · obtain ⟨n, s, hle, hreach, hend⟩ := loop_ends arch K g task _ s0 rfl
      exact ⟨n, s, by omega, hreach, hend⟩
    · intro n s hreach henter
      have hc := loop_reaches_count arch K g task n s0 s hreach
      simp only [loop_enters, decide_eq_true_eq] at henter
      omega

/-- C22 at work: with reads that always succeed on an endless chain and
`max_depth = 3`, the walk ends with three frames; its reads are bounded by 3 and
its first pass is within the bound. -/
theorem walk_terminates_within_depth_witness :
    (walk_stack_frame_pointer Arch.x86_64 endless_kernel
      (stack_walker_init (some (depth_config 3)) initial_globals) 1 low_chain_state
      StackTrace.zero fresh_world).2.1.frame_count = 3 ∧
    (∃ l, (walk_stack_frame_pointer Arch.x86_64 endless_kernel
        (stack_walker_init (some (depth_config 3)) initial_globals) 1 low_chain_state
        StackTrace.zero fresh_world).2.2.calls = fresh_world.calls ++ l ∧
      l.countP Event.is_memory_read
        ≤ (stack_walker_init (some (depth_config 3)) initial_globals).g_config.max_depth) ∧
    0 + 1 ≤ (stack_walker_init (some (depth_config 3)) initial_globals).g_config.max_depth :=
  have h := walk_terminates_within_depth Arch.x86_64 endless_kernel
    (stack_walker_init (some (depth_config 3)) initial_globals) 1 low_chain_state
    StackTrace.zero fresh_world
  ⟨endless_walk.1, h.1,
   (h.2.1 low_chain_entry
      (by simp [walk_loop_entry, low_chain_entry, low_chain_state, is_valid_address, GET_PC,
            GET_FP])).2 0 low_chain_entry rfl
      (by simp [loop_enters, low_chain_entry, stack_walker_init, initial_globals,
            depth_config, MAX_STACK_DEPTH, StackTrace.add_frame, StackTrace.zero])⟩

/-! ### Array bounds -/

/-- Whatever configuration is handed to `stack_walker_init`, the installed
`max_depth` is at most `MAX_STACK_DEPTH`. -/
theorem init_max_depth_le (config : Option StackWalkerConfig) (g : Globals) :
    (stack_walker_init config g).g_config.max_depth ≤ MAX_STACK_DEPTH := by
  unfold stack_walker_init
  simp only []
  split_ifs with h
  · exact le_refl _
  · exact Nat.le_of_not_lt h

/-- The chain loop leaves the array untouched from its final `frame_count` on. -/
theorem walk_loop_frames_above {σ : Type} (arch : Arch) (K : Kernel σ) (g : Globals)
    (task : Nat) (trace : StackTrace) (fp prev_fp : Nat) (w : World σ) (i : Nat)
    (hi : (walk_loop arch K g task trace fp prev_fp w).1.frame_count ≤ i) :
    (walk_loop arch K g task trace fp prev_fp w).1.frames i = trace.frames i := by
  induction trace, fp, prev_fp, w using walk_loop.induct arch K g task with
  | case1 trace fp prev_fp w h1 h2 =>
    rw [walk_loop]; simp only [h1, h2, if_true]
  | case2 trace fp prev_fp w h1 h2 h3 =>
    rw [walk_loop]; simp only [h1, h2, h3, if_true, if_false, Bool.true_eq_false]
  | case3 trace fp prev_fp w h1 h2 h3 h4 =>
    rw [walk_loop]; simp only [h1, h2, h3, h4, if_true, if_false, Bool.true_eq_false]
  | case4 trace fp prev_fp w h1 h2 h3 h4 r h5 =>
    rw [walk_loop]; simp only [h1, h2, h3, h4, if_true, if_false]
    rw [if_pos h5]; simp only [Bool.true_eq_false, if_false]
  | case5 trace fp prev_fp w h1 h2 h3 h4 r h5 ra h6 =>
    rw [walk_loop]; simp only [h1, h2, h3, h4, if_true, if_false]
    rw [if_neg h5, if_pos h6]; simp only [Bool.true_eq_false, if_false]
  | case6 trace fp prev_fp w h1 h2 h3 h4 r h5 nf ra h6 h7 =>
    rw [walk_loop] at hi ⊢
    simp only [h1, h2, h3, h4, if_true, if_false] at hi ⊢
    rw [if_neg h5, if_neg h6, if_pos h7] at hi ⊢
    simp only [Bool.true_eq_false, if_false] at hi ⊢
    have hne : i ≠ trace.frame_count := by
      have : trace.frame_count + 1 ≤ i := hi
      omega
    exact Function.update_noteq hne _ _
  | case7 trace fp prev_fp w h1 h2 h3 h4 r h5 nf ra h6 w1 trace1 h7 ih =>
    rw [walk_loop] at hi ⊢
    simp only [h1, h2, h3, h4, if_true, if_false] at hi ⊢
    rw [if_neg h5, if_neg h6, if_neg h7] at hi ⊢
    simp only [Bool.true_eq_false, if_false] at hi ⊢
    have hmono := (walk_loop_extends arch K g task trace1 nf fp w1).1
    have hne : i ≠ trace.frame_count := by
      have h1 : trace1.frame_count = trace.frame_count + 1 := rfl
      have h2 : (walk_loop arch K g task trace1 nf fp w1).1.frame_count ≤ i := hi
      omega
    exact (ih hi).trans (Function.update_noteq hne _ _)
  | case8 trace fp prev_fp w h1 =>
    rw [walk_loop]; simp only [h1, if_false]


/-- The walk when it returns before the loop. -/
theorem walk_of_no_entry {σ : Type} (arch : Arch) (K : Kernel σ) (g : Globals) (task : Nat)
    (state : cpu_state_t) (trace : StackTrace) (w : World σ)
    (h : walk_loop_entry arch state trace w = none) :
    walk_stack_frame_pointer arch K g task state trace w
      = (0, { trace with frame_count := 0 }, w) := by
  unfold walk_loop_entry at h
  unfold walk_stack_frame_pointer
  split_ifs at h with h1 h2
  have h1f : is_valid_address arch (GET_PC state) = false := by simpa using h1
  simp only [h1f, h2, Bool.false_eq_true, if_false, if_true]

/-- The trace the walk enters the loop with has at most one frame and the
caller's array from index 1 on. -/
theorem entry_trace {σ : Type} (arch : Arch) (state : cpu_state_t) (trace : StackTrace)
    (w : World σ) (s0 : LoopState σ) (h : walk_loop_entry arch state trace w = some s0) :
    s0.trace.frame_count ≤ 1 ∧ ∀ i, 1 ≤ i → s0.trace.frames i = trace.frames i := by
  unfold walk_loop_entry at h
  split_ifs at h with h1 h2
  · injection h with h
    subst h
    refine ⟨le_refl _, fun i hi => ?_⟩
    have hne : i ≠ 0 := by omega
    exact Function.update_noteq hne _ _
  · injection h with h
    subst h
    exact ⟨Nat.zero_le _, fun _ _ => rfl⟩

/-- The walk returns at most `max(1, max_depth)` frames and leaves the array
untouched from that index on. -/
theorem walk_frames_above {σ : Type} (arch : Arch) (K : Kernel σ) (g : Globals) (task : Nat)
    (state : cpu_state_t) (trace : StackTrace) (w : World σ) :
    (walk_stack_frame_pointer arch K g task state trace w).2.1.frame_count
      ≤ max 1 g.g_config.max_depth ∧
    ∀ i, max 1 g.g_config.max_depth ≤ i →
      (walk_stack_frame_pointer arch K g task state trace w).2.1.frames i = trace.frames i := by
  cases h : walk_loop_entry arch state trace w with
  | none =>
    rw [walk_of_no_entry arch K g task state trace w h]
    exact ⟨Nat.zero_le _, fun _ _ => rfl⟩
  | some s0 =>
    rw [walk_of_entry arch K g task state trace w s0 h]
    obtain ⟨h1, h2⟩ := entry_trace arch state trace w s0 h
    have hle := (walk_loop_extends arch K g task s0.trace s0.fp s0.prev_fp s0.world).2.1
    have hb : (walk_loop arch K g task s0.trace s0.fp s0.prev_fp s0.world).1.frame_count
        ≤ max 1 g.g_config.max_depth := by
      rcases le_max_iff.mp hle with h | h
      · exact le_trans (le_trans h h1) (le_max_left _ _)
      · exact le_trans h (le_max_right _ _)
    refine ⟨hb, fun i hi => ?_⟩
    have h1i : 1 ≤ i := le_trans (le_max_left _ _) hi
    rw [← h2 i h1i]
    exact walk_loop_frames_above arch K g task s0.trace s0.fp s0.prev_fp s0.world i
      (le_trans hb hi)

/-- C24: for every configuration handed to `stack_walker_init` (NULL or any
`max_depth`, 0 and values above 512 included), every register state and every
kernel, each store of `walk_stack_frame_pointer` into `trace->frames` is at an
index below `MAX_STACK_DEPTH`: every `frame_store` entry the walk adds to the
call record has such an index, no array position from `MAX_STACK_DEPTH` on is
changed, and the returned `frame_count` is at most `MAX_STACK_DEPTH`. -/
theorem walk_stores_below_capacity {σ : Type} (arch : Arch) (K : Kernel σ)
    (config : Option StackWalkerConfig) (g0 : Globals) (task : Nat) (state : cpu_state_t)
    (trace : StackTrace) (w : World σ) :
    (∀ i, Event.frame_store i ∈
        (walk_stack_frame_pointer arch K (stack_walker_init config g0) task state trace
          w).2.2.calls →
      Event.frame_store i ∈ w.calls ∨ i < MAX_STACK_DEPTH) ∧
    (∀ i, MAX_STACK_DEPTH ≤ i →
      (walk_stack_frame_pointer arch K (stack_walker_init config g0) task state trace
        w).2.1.frames i = trace.frames i) ∧
    (walk_stack_frame_pointer arch K (stack_walker_init config g0) task state trace
      w).2.1.frame_count ≤ MAX_STACK_DEPTH := by
  have hd := init_max_depth_le config g0
  have hcap : 1 ≤ MAX_STACK_DEPTH := by decide
  have hmax : max 1 (stack_walker_init config g0).g_config.max_depth ≤ MAX_STACK_DEPTH :=
    max_le hcap hd
  obtain ⟨hcount, habove⟩ := walk_frames_above arch K (stack_walker_init config g0) task
    state trace w
  refine ⟨?_, fun i hi => habove i (le_trans hmax hi), le_trans hcount hmax⟩
  intro i hi
  obtain ⟨l, hl, hall⟩ := walk_calls arch K (stack_walker_init config g0) task state trace w
  rw [hl] at hi
  rcases List.mem_append.mp hi with h | h
  · exact Or.inl h
  · right
    have := hall _ h
    simp only [Event.is_walk_step, decide_eq_true_eq] at this
    exact lt_of_lt_of_le this.2 hmax

/-- The calls of the walk over `low_chain_mem` when a depth of 1000 was asked for. -/
theorem low_chain_deep_calls :
    (walk_stack_frame_pointer Arch.x86_64 low_chain_kernel
      (stack_walker_init (some (depth_config 1000)) initial_globals) 1 low_chain_state
      StackTrace.zero fresh_world).2.2.calls =
      [Event.frame_store 0, Event.vm_read_overwrite 1 0x100000 16, Event.frame_store 1,
       Event.vm_read_overwrite 1 0x100100 16, Event.frame_store 2] := by
  simp [walk_stack_frame_pointer, walk_loop, stack_walker_init, initial_globals, depth_config,
    is_valid_address, GET_PC, GET_FP, StackTrace.add_frame, StackTrace.zero,
    MAX_STACK_DEPTH, low_chain_kernel, table_kernel, low_chain_mem, low_chain_state,
    read_memory, World.emit, fresh_world, KERN_SUCCESS]

/-- C24 at work: with `max_depth = 1000` asked for, the store at index 2 of the
walk over `low_chain_mem` is below 512 and position 512 of the array is untouched. -/
theorem walk_stores_below_capacity_witness :
    (Event.frame_store 2 ∈ fresh_world.calls ∨ 2 < MAX_STACK_DEPTH) ∧
    (walk_stack_frame_pointer Arch.x86_64 low_chain_kernel
      (stack_walker_init (some (depth_config 1000)) initial_globals) 1 low_chain_state
      StackTrace.zero fresh_world).2.1.frames 512 = StackTrace.zero.frames 512 :=
  have h := walk_stores_below_capacity Arch.x86_64 low_chain_kernel
    (some (depth_config 1000)) initial_globals 1 low_chain_state StackTrace.zero fresh_world
  ⟨h.1 2 (by rw [low_chain_deep_calls]; simp), h.2.1 512 (by decide)⟩


/-! ### The Error state -/

/-- The block that releases a held thread list leaves task handle, state and
internal data of the target alone. -/
theorem release_if_held_keeps {σ : Type} (K : Kernel σ) (target : ProfilerTarget)
    (w : World σ) :
    (release_if_held K target w).1.task = target.task ∧
    (release_if_held K target w).1.state = target.state ∧
    (release_if_held K target w).1.internal_data = target.internal_data := by
  unfold release_if_held
  split_ifs <;> exact ⟨rfl, rfl, rfl⟩

/-- Result code and state after `profiler_refresh_threads` on a target that is
not Detached: a failing enumeration gives its status and state Error, a
succeeding one gives 0 and the state the target had. -/
theorem refresh_threads_state {σ : Type} (K : Kernel σ) (p : Process σ)
    (hs : p.target.state ≠ ProfilerState.PROFILER_STATE_DETACHED) :
    ((K.task_threads p.target.task (release_if_held K p.target p.world).2.kstate).1.1
        ≠ KERN_SUCCESS →
      (profiler_refresh_threads K p).1
        = (K.task_threads p.target.task (release_if_held K p.target p.world).2.kstate).1.1 ∧
      (profiler_refresh_threads K p).2.target.state = ProfilerState.PROFILER_STATE_ERROR) ∧
    ((K.task_threads p.target.task (release_if_held K p.target p.world).2.kstate).1.1
        = KERN_SUCCESS →
      (profiler_refresh_threads K p).1 = 0 ∧
      (profiler_refresh_threads K p).2.target.state = p.target.state) := by
  obtain ⟨ht, hst, _⟩ := release_if_held_keeps K p.target p.world
  have hunf : profiler_refresh_threads K p =
      if (K.task_threads (release_if_held K p.target p.world).1.task
            (release_if_held K p.target p.world).2.kstate).1.1 ≠ KERN_SUCCESS then
        ((K.task_threads (release_if_held K p.target p.world).1.task
            (release_if_held K p.target p.world).2.kstate).1.1,
          { target := { (release_if_held K p.target p.world).1 with
              state := ProfilerState.PROFILER_STATE_ERROR }
            globals := p.globals
            world := (release_if_held K p.target p.world).2.emit
              (K.task_threads (release_if_held K p.target p.world).1.task
                (release_if_held K p.target p.world).2.kstate).2
              (Event.task_threads (release_if_held K p.target p.world).1.task) })
      else
        (0, { target := { (release_if_held K p.target p.world).1 with
                threads := some (K.task_threads (release_if_held K p.target p.world).1.task
                  (release_if_held K p.target p.world).2.kstate).1.2
                thread_count := (K.task_threads (release_if_held K p.target p.world).1.task
                  (release_if_held K p.target p.world).2.kstate).1.2.length }
              globals := p.globals
              world := (release_if_held K p.target p.world).2.emit
                (K.task_threads (release_if_held K p.target p.world).1.task
                  (release_if_held K p.target p.world).2.kstate).2
                (Event.task_threads (release_if_held K p.target p.world).1.task) }) := by
    unfold profiler_refresh_threads
    rw [if_neg hs]
    rfl
  rw [hunf, ht]
  constructor
  · intro hk
    rw [if_pos hk]
    exact ⟨rfl, rfl⟩
  · intro hk
    rw [if_neg (not_not.mpr hk)]
    exact ⟨rfl, hst⟩

/-- The sampling operations leave the state of the target as it was. -/
theorem capture_keeps_state {σ : Type} (arch : Arch) (K : Kernel σ) (p : Process σ) :
    (∀ thread_index trace,
      (profiler_capture_thread_stack arch K thread_index trace p).2.2.target.state
        = p.target.state) ∧
    (∀ traces trace_count,
      (profiler_capture_all_stacks arch K traces trace_count p).2.2.2.target.state
        = p.target.state) := by
  constructor
  · intro thread_index trace
    unfold profiler_capture_thread_stack
    split_ifs <;> rfl
  · intro traces trace_count
    unfold profiler_capture_all_stacks
    split_ifs <;> rfl

/-- An operation other than `profiler_detach` keeps a target in state Error. -/
theorem run_target_call_error {σ : Type} (arch : Arch) (K : Kernel σ) (p : Process σ)
    (call : TargetCall) (he : p.target.state = ProfilerState.PROFILER_STATE_ERROR) :
    (run_target_call arch K p call).target.state = ProfilerState.PROFILER_STATE_ERROR := by
  have hs : p.target.state ≠ ProfilerState.PROFILER_STATE_DETACHED := by rw [he]; decide
  cases call with
  | refresh_threads =>
    simp only [run_target_call]
    obtain ⟨h1, h2⟩ := refresh_threads_state K p hs
    by_cases hk : (K.task_threads p.target.task
        (release_if_held K p.target p.world).2.kstate).1.1 = KERN_SUCCESS
    · rw [(h2 hk).2, he]
    · exact (h1 hk).2
  | capture_thread_stack thread_index trace =>
    simp only [run_target_call]
    rw [(capture_keeps_state arch K p).1, he]
  | capture_all_stacks traces trace_count =>
    simp only [run_target_call]
    rw [(capture_keeps_state arch K p).2, he]

/-- The target of `error_process`: state Error, task 4138, threads 7 and 8. -/
theorem error_process_target :
    error_process.target =
      { pid := 42, task := 4138, threads := some [7, 8], thread_count := 2
        state := ProfilerState.PROFILER_STATE_ERROR
        internal_data := some { config := profiler_default_config, stats := ProfilerStats.zero } } := by
  have h1 := ((refresh_threads_spec threads_fail_kernel (attached_process first_fails_kernel)
    (by rw [attached_first_fails_target]; decide)
    (by rw [attached_first_fails_target]; rfl)).2.2.1
    (by simp [threads_fail_kernel, KERN_SUCCESS])).2
  rw [attached_first_fails_target] at h1
  have h2 := ((refresh_threads_spec first_fails_kernel
    (profiler_refresh_threads threads_fail_kernel (attached_process first_fails_kernel)).2
    (by rw [h1]; decide) (by rw [h1]; rfl)).2.2.2
    (by simp [first_fails_kernel, table_kernel, KERN_SUCCESS])).2
  rw [h1] at h2
  unfold error_process
  rw [h2]
  simp [first_fails_kernel, table_kernel]

/-- C25: a target in state Error, for every kernel. Every operation other than
`profiler_detach`, and every sequence of such operations, leaves it in state
Error. A `profiler_refresh_threads` call whose enumeration succeeds returns 0 and
leaves the state Error, not Attached. `profiler_capture_thread_stack` with an
index below `thread_count` is not refused: it returns the result of
`stack_walker_capture` on `threads[thread_index]`, and
`profiler_capture_all_stacks` returns 0. -/
theorem error_state_persists {σ : Type} (arch : Arch) (K : Kernel σ) (p : Process σ)
    (he : p.target.state = ProfilerState.PROFILER_STATE_ERROR) :
    (∀ call : TargetCall,
      (run_target_call arch K p call).target.state = ProfilerState.PROFILER_STATE_ERROR) ∧
    (∀ calls : List TargetCall,
      (calls.foldl (run_target_call arch K) p).target.state
        = ProfilerState.PROFILER_STATE_ERROR) ∧
    ((K.task_threads p.target.task (release_if_held K p.target p.world).2.kstate).1.1
        = KERN_SUCCESS →
      (profiler_refresh_threads K p).1 = 0 ∧
      (profiler_refresh_threads K p).2.target.state = ProfilerState.PROFILER_STATE_ERROR ∧
      (profiler_refresh_threads K p).2.target.state
        ≠ ProfilerState.PROFILER_STATE_ATTACHED) ∧
    (∀ thread_index trace, thread_index < p.target.thread_count →
      (profiler_capture_thread_stack arch K thread_index trace p).1
        = (stack_walker_capture arch K p.globals p.target.task
            (p.target.thread_at thread_index) trace p.world).1 ∧
      (profiler_capture_thread_stack arch K thread_index trace p).2.2.world
        = (stack_walker_capture arch K p.globals p.target.task
            (p.target.thread_at thread_index) trace p.world).2.2.2) ∧
    (∀ traces trace_count,
      (profiler_capture_all_stacks arch K traces trace_count p).1 = 0) := by
  have hs : p.target.state ≠ ProfilerState.PROFILER_STATE_DETACHED := by rw [he]; decide
  refine ⟨fun call => run_target_call_error arch K p call he, ?_, ?_, ?_, ?_⟩
  · intro calls
    induction calls generalizing p with
    | nil => exact he
    | cons call rest ih =>
      exact ih (run_target_call arch K p call) (run_target_call_error arch K p call he)
        (by rw [run_target_call_error arch K p call he]; decide)
  · intro hk
    obtain ⟨h0, hst⟩ := (refresh_threads_state K p hs).2 hk
    refine ⟨h0, by rw [hst, he], ?_⟩
    rw [hst, he]
    decide
  · intro thread_index trace hi
    unfold profiler_capture_thread_stack
    rw [if_neg hs, if_neg (by omega)]
    exact ⟨rfl, rfl⟩
  · intro traces trace_count
    unfold profiler_capture_all_stacks
    rw [if_neg hs]

/-- C25 at work on `error_process` (state Error, threads 7 and 8): a refresh whose
enumeration succeeds returns 0 and keeps Error, and a batch capture returns 0 and
keeps Error. -/
theorem error_state_persists_witness :
    error_process.target.state = ProfilerState.PROFILER_STATE_ERROR ∧
    (profiler_refresh_threads first_fails_kernel error_process).1 = 0 ∧
    (profiler_refresh_threads first_fails_kernel error_process).2.target.state
      = ProfilerState.PROFILER_STATE_ERROR ∧
    (profiler_capture_all_stacks Arch.x86_64 first_fails_kernel (fun _ => StackTrace.zero) 0
      error_process).1 = 0 ∧
    (run_target_call Arch.x86_64 first_fails_kernel error_process
      (TargetCall.capture_all_stacks (fun _ => StackTrace.zero) 0)).target.state
      = ProfilerState.PROFILER_STATE_ERROR :=
  have he : error_process.target.state = ProfilerState.PROFILER_STATE_ERROR := by
    rw [error_process_target]
  have h := error_state_persists Arch.x86_64 first_fails_kernel error_process he
  have hr := h.2.2.1 (by simp [first_fails_kernel, table_kernel, KERN_SUCCESS])
  ⟨he, hr.1, hr.2.1, h.2.2.2.2 _ _, h.1 _⟩

end SwiftAsyncProfiler
